import Mathlib

/-!
Verification of the STABS-to-AST lowering engine and the mdebug symbolic
header reader of the Chaos Compiler Collection excerpt.

The C++ sources `src/ccc/stabs_to_ast.cpp`, `ccc/mdebug.cpp` and
`ccc/util.cpp` are embedded shallowly below.  Machine integers (`s32`,
`s64`, `u32`) are modelled as `Int` (the source never relies on overflow
in the code paths treated here, except for `strtoll` saturation which is
modelled explicitly); fallible code returns `Except CccError`.  The
headers (`ccc.h`, `stabs.h`, `ast.h`, `symbol_table.h`, `mdebug.h`) are
not part of the excerpt; the record layouts they declare are reconstructed
from their uses in the `.cpp` files and, where noted, from the spec.
-/

namespace ccc

/-- The AST built-in classes (`ast::BuiltInClass`, from `ast.h`, used
throughout `stabs_to_ast.cpp`). -/
inductive BuiltInClass where
  | VOID
  | BOOL_8
  | UNSIGNED_8
  | SIGNED_8
  | UNQUALIFIED_8
  | UNSIGNED_16
  | SIGNED_16
  | UNSIGNED_32
  | SIGNED_32
  | UNSIGNED_64
  | SIGNED_64
  | UNSIGNED_128
  | SIGNED_128
  | UNQUALIFIED_128
  | FLOAT_32
  | FLOAT_64
  | FLOAT_128
deriving DecidableEq, Repr

/-- Modelled from the spec: `builtin_class_size` (the function lives in an
AST source file that is not part of the excerpt) returns the byte size of
a built-in class; the sizes follow the class names of spec section 3
(UNSIGNED_8 is one byte, ..., FLOAT_128 and the 128-bit classes are
sixteen bytes, VOID has no size). -/
def builtin_class_size : BuiltInClass → Int
  | .VOID => 0
  | .BOOL_8 => 1
  | .UNSIGNED_8 => 1
  | .SIGNED_8 => 1
  | .UNQUALIFIED_8 => 1
  | .UNSIGNED_16 => 2
  | .SIGNED_16 => 2
  | .UNSIGNED_32 => 4
  | .SIGNED_32 => 4
  | .UNSIGNED_64 => 8
  | .SIGNED_64 => 8
  | .UNSIGNED_128 => 16
  | .SIGNED_128 => 16
  | .UNQUALIFIED_128 => 16
  | .FLOAT_32 => 4
  | .FLOAT_64 => 8
  | .FLOAT_128 => 16

/-- `ast::ForwardDeclaredType`: the kind a STABS cross reference forward
declares. -/
inductive ForwardDeclaredType where
  | STRUCT
  | UNION
  | ENUM
deriving DecidableEq, Repr

/-- `StabsStructOrUnionType::Visibility`. -/
inductive Visibility where
  | NONE
  | PUBLIC
  | PROTECTED
  | PRIVATE
  | PUBLIC_OPTIMIZED_OUT
deriving DecidableEq, Repr

/-- `ast::AccessSpecifier`. -/
inductive AccessSpecifier where
  | AS_PUBLIC
  | AS_PROTECTED
  | AS_PRIVATE
deriving DecidableEq, Repr

/-- Errors.  `fail` models a `CCC_FAILURE` / `CCC_CHECK` failure carrying
the formatted message.  `undefined` models undefined behaviour: C++ code
that dereferences a failed `Result` (the `Result` type of the missing
header `ccc.h`; per the spec's propagation policy every error is meant to
be returned to the caller, so dereferencing an error result is an
assertion failure or null dereference, never a normal return). -/
inductive CccError where
  | fail (message : String)
  | undefined
deriving DecidableEq, Repr

/-- `Result<T>` of `ccc.h`. -/
abbrev Result (α : Type) : Type := Except CccError α

/-- `strtoll` (C standard library, used by `classify_range` and the ARRAY
case of `stabs_type_to_ast`): skip leading white space, read an optional
sign and then digits of the given base (8 or 10); `none` models
`end == str` (no digits were consumed); the value saturates at the
signed 64-bit bounds (`LLONG_MIN`/`LLONG_MAX`) as `strtoll` does on
overflow. -/
def strtoll_digit_ok (base : Nat) (c : Char) : Bool :=
  '0' ≤ c && c.toNat < '0'.toNat + base

def strtoll_accumulate (base : Nat) (digits : List Char) : Int :=
  digits.foldl (fun acc c => acc * (base : Int) + ((c.toNat : Int) - ('0'.toNat : Int))) 0

def llong_min : Int := -(2 ^ 63)

def llong_max : Int := 2 ^ 63 - 1

def clamp_s64 (v : Int) : Int := max llong_min (min v llong_max)

def strtoll (s : String) (base : Nat) : Option Int :=
  let cs := s.data.dropWhile (fun c =>
    c = ' ' || c = '\t' || c = '\n' || c = '\x0b' || c = '\x0c' || c = '\r')
  let signAndRest : Int × List Char :=
    match cs with
    | '-' :: rest => (-1, rest)
    | '+' :: rest => (1, rest)
    | rest => (1, rest)
  let digits := signAndRest.2.takeWhile (strtoll_digit_ok base)
  if digits.isEmpty then none
  else some (clamp_s64 (signAndRest.1 * strtoll_accumulate base digits))

/-- `StabsRangeType` (from `stabs.h`): the low/high bound strings of a
RANGE descriptor. -/
structure StabsRangeType where
  low : String
  high : String
deriving DecidableEq, Repr

/-- The literal string table of `classify_range` (`stabs_to_ast.cpp`
lines 448-464), reproduced row for row. -/
def classify_range_strings : List (String × String × BuiltInClass) :=
  [ ("4", "0", .FLOAT_32),
    ("000000000000000000000000", "001777777777777777777777", .UNSIGNED_64),
    ("00000000000000000000000000000000000000000000", "00000000000000000000001777777777777777777777", .UNSIGNED_64),
    ("0000000000000", "01777777777777777777777", .UNSIGNED_64),
    ("0", "18446744073709551615", .UNSIGNED_64),
    ("001000000000000000000000", "000777777777777777777777", .SIGNED_64),
    ("00000000000000000000001000000000000000000000", "00000000000000000000000777777777777777777777", .SIGNED_64),
    ("01000000000000000000000", "0777777777777777777777", .SIGNED_64),
    ("-9223372036854775808", "9223372036854775807", .SIGNED_64),
    ("8", "0", .FLOAT_64),
    ("00000000000000000000000000000000000000000000", "03777777777777777777777777777777777777777777", .UNSIGNED_128),
    ("02000000000000000000000000000000000000000000", "01777777777777777777777777777777777777777777", .SIGNED_128),
    ("000000000000000000000000", "0377777777777777777777777777777777", .UNQUALIFIED_128),
    ("16", "0", .FLOAT_128),
    ("0", "-1", .UNQUALIFIED_128) ]

/-- The numeric table of `classify_range` (`stabs_to_ast.cpp` lines
479-487). -/
def classify_range_integers : List (Int × Int × BuiltInClass) :=
  [ (0, 255, .UNSIGNED_8),
    (-128, 127, .SIGNED_8),
    (0, 127, .UNQUALIFIED_8),
    (0, 65535, .UNSIGNED_16),
    (-32768, 32767, .SIGNED_16),
    (0, 4294967295, .UNSIGNED_32),
    (-2147483648, 2147483647, .SIGNED_32) ]

/-- `classify_range` (`stabs_to_ast.cpp` lines 441-496): first the literal
string table, then parse the bounds (base 8 when the string starts with
'0', else base 10) and scan the numeric table, accepting a row when the
low bound matches up to sign and the high bound matches exactly. -/
def classify_range (type : StabsRangeType) : Result BuiltInClass :=
  match classify_range_strings.find? (fun r => r.1 == type.low && r.2.1 == type.high) with
  | some r => .ok r.2.2
  | none =>
    match strtoll type.low (if type.low.data.headD '\x00' = '0' then 8 else 10) with
    | none => .error (.fail "Failed to parse low part of range as integer.")
    | some low_value =>
      match strtoll type.high (if type.high.data.headD '\x00' = '0' then 8 else 10) with
      | none => .error (.fail "Failed to parse high part of range as integer.")
      | some high_value =>
        match classify_range_integers.find?
            (fun r => (r.1 == low_value || r.1 == -low_value) && r.2.1 == high_value) with
        | some r => .ok r.2.2
        | none => .error (.fail "Failed to classify range.")

/-- `StabsTypeNumber` (from `stabs.h`): the `(file, type)` pair identifying
a STABS type within a translation unit. -/
structure StabsTypeNumber where
  file : Int
  type : Int
deriving DecidableEq, Repr

mutual

/-- `StabsType` (from `stabs.h`), reconstructed from its uses in
`stabs_to_ast.cpp`: a type number, the `anonymous` and `is_root` flags, an
optional name, and — when the type string carried a body — the parsed
descriptor.  A body-less type (`!has_body`) only refers to a previously
defined type by number and stores no descriptor. -/
inductive StabsType : Type where
  | mk (type_number : StabsTypeNumber) (anonymous : Bool) (name : Option String)
      (is_root : Bool) (body : Option StabsDescriptor)

/-- The descriptor variants of `StabsType` with their payloads
(`StabsTypeReferenceType`, `StabsArrayType`, ... from `stabs.h`). -/
inductive StabsDescriptor : Type where
  | TYPE_REFERENCE (type : StabsType)
  | ARRAY (index_type : StabsType) (element_type : StabsType)
  | ENUM (fields : List (Int × String))
  | FUNCTION (return_type : StabsType)
  | VOLATILE_QUALIFIER (type : StabsType)
  | CONST_QUALIFIER (type : StabsType)
  | RANGE (low : String) (high : String)
  | STRUCT (size : Int) (base_classes : List StabsBaseClass) (fields : List StabsField)
      (member_functions : List StabsMemberFunctionSet)
  | UNION (size : Int) (base_classes : List StabsBaseClass) (fields : List StabsField)
      (member_functions : List StabsMemberFunctionSet)
  | CROSS_REFERENCE (type : ForwardDeclaredType) (identifier : String)
  | FLOATING_POINT_BUILTIN (bytes : Int)
  | METHOD (return_type : StabsType) (parameter_types : List StabsType)
  | POINTER (value_type : StabsType)
  | REFERENCE (value_type : StabsType)
  | TYPE_ATTRIBUTE (type : StabsType) (size_bits : Int)
  | POINTER_TO_DATA_MEMBER (class_type : StabsType) (member_type : StabsType)
  | BUILTIN (type_id : Int)

/-- `StabsStructOrUnionType::BaseClass`. -/
inductive StabsBaseClass : Type where
  | mk (visibility : Visibility) (offset : Int) (type : StabsType)

/-- `StabsStructOrUnionType::Field`. -/
inductive StabsField : Type where
  | mk (name : String) (type : StabsType) (offset_bits : Int) (size_bits : Int)
      (is_static : Bool) (visibility : Visibility)

/-- `StabsStructOrUnionType::MemberFunction`: one overload.  The modifier
tag is kept abstract as an integer. -/
inductive StabsMemberFunction : Type where
  | mk (type : StabsType) (visibility : Visibility) (modifier : Int) (vtable_index : Int)

/-- `StabsStructOrUnionType::MemberFunctionSet`. -/
inductive StabsMemberFunctionSet : Type where
  | mk (name : String) (overloads : List StabsMemberFunction)

end

def StabsType.type_number : StabsType → StabsTypeNumber
  | .mk tn _ _ _ _ => tn

def StabsType.anonymous : StabsType → Bool
  | .mk _ a _ _ _ => a

def StabsType.name : StabsType → Option String
  | .mk _ _ n _ _ => n

def StabsType.is_root : StabsType → Bool
  | .mk _ _ _ r _ => r

def StabsType.body : StabsType → Option StabsDescriptor
  | .mk _ _ _ _ b => b

/-- `StabsType::has_body`: whether the type string defined a body (and so
a descriptor is stored). -/
def StabsType.has_body (t : StabsType) : Bool := t.body.isSome

def StabsField.name : StabsField → String
  | .mk n _ _ _ _ _ => n

def StabsField.type : StabsField → StabsType
  | .mk _ t _ _ _ _ => t

def StabsField.offset_bits : StabsField → Int
  | .mk _ _ o _ _ _ => o

def StabsField.size_bits : StabsField → Int
  | .mk _ _ _ s _ _ => s

def StabsField.is_static : StabsField → Bool
  | .mk _ _ _ _ s _ => s

def StabsField.visibility : StabsField → Visibility
  | .mk _ _ _ _ _ v => v

def StabsBaseClass.visibility : StabsBaseClass → Visibility
  | .mk v _ _ => v

def StabsBaseClass.offset : StabsBaseClass → Int
  | .mk _ o _ => o

def StabsBaseClass.type : StabsBaseClass → StabsType
  | .mk _ _ t => t

def StabsMemberFunction.type : StabsMemberFunction → StabsType
  | .mk t _ _ _ => t

def StabsMemberFunction.visibility : StabsMemberFunction → Visibility
  | .mk _ v _ _ => v

def StabsMemberFunction.modifier : StabsMemberFunction → Int
  | .mk _ _ m _ => m

def StabsMemberFunction.vtable_index : StabsMemberFunction → Int
  | .mk _ _ _ v => v

def StabsMemberFunctionSet.name : StabsMemberFunctionSet → String
  | .mk n _ => n

def StabsMemberFunctionSet.overloads : StabsMemberFunctionSet → List StabsMemberFunction
  | .mk _ o => o

/-- `type.descriptor == StabsTypeDescriptor::RANGE`.  For a body-less type
the parser stores no descriptor, so the comparison is false. -/
def StabsType.is_range_descriptor (t : StabsType) : Bool :=
  match t.body with
  | some (.RANGE _ _) => true
  | _ => false

/-- `type.descriptor == StabsTypeDescriptor::BUILTIN`. -/
def StabsType.is_builtin_descriptor (t : StabsType) : Bool :=
  match t.body with
  | some (.BUILTIN _) => true
  | _ => false

/-- `type.descriptor == StabsTypeDescriptor::CROSS_REFERENCE`. -/
def StabsType.is_cross_reference_descriptor (t : StabsType) : Bool :=
  match t.body with
  | some (.CROSS_REFERENCE _ _) => true
  | _ => false

/-- `std::string::starts_with`, on character data. -/
def str_starts_with (s p : String) : Bool := p.data.isPrefixOf s.data

/-- `ast::TypeNameSource`. -/
inductive TypeNameSource where
  | REFERENCE
  | CROSS_REFERENCE
  | THIS
deriving DecidableEq, Repr

/-- `ast::TypeName::UnresolvedStabs` (from `ast.h`): the unresolved
descriptor stored inside a `TypeName` node.  Fields not assigned by
`stabs_to_ast.cpp` keep their defaults. -/
structure UnresolvedStabs where
  type_name : String := ""
  type : Option ForwardDeclaredType := none
  referenced_file_handle : Int := -1
  stabs_type_number_file : Int := -1
  stabs_type_number_type : Int := -1
deriving DecidableEq, Repr

/-- Storage classes; only `STATIC` is assigned by the excerpt
(`STORAGE_CLASS_STATIC`, for static fields). -/
inductive StorageClass where
  | NONE
  | STATIC
deriving DecidableEq, Repr

/-- The common attribute block shared by every `ast::Node` (from `ast.h`),
with the default values the nodes are constructed with. -/
structure NodeCommon where
  name : String := ""
  offset_bytes : Int := -1
  size_bits : Int := -1
  is_const : Bool := false
  is_volatile : Bool := false
  is_base_class : Bool := false
  is_vtable_pointer : Bool := false
  is_constructor_or_destructor : Bool := false
  is_special_member_function : Bool := false
  is_operator_member_function : Bool := false
  storage_class : StorageClass := .NONE
  access_specifier : AccessSpecifier := .AS_PUBLIC
deriving DecidableEq, Repr

mutual

/-- `ast::Node`: the common attribute block plus the variant payload. -/
inductive Node : Type where
  | mk (common : NodeCommon) (variant : NodeVariant)

/-- The `ast::Node` variants produced by `stabs_to_ast.cpp`. -/
inductive NodeVariant : Type where
  | builtIn (bclass : BuiltInClass)
  | array (element_type : Node) (element_count : Int)
  | inlineEnum (constants : List (Int × String))
  | function (return_type : Option Node) (parameters : Option (List Node))
      (modifier : Int) (vtable_index : Int)
  | structOrUnion (is_struct : Bool) (base_classes : List Node) (fields : List Node)
      (member_functions : List Node)
  | typeName (source : TypeNameSource) (unresolved_stabs : Option UnresolvedStabs)
  | bitField (underlying_type : Node) (bitfield_offset_bits : Int)
  | pointerOrReference (is_pointer : Bool) (value_type : Node)
  | pointerToDataMember (class_type : Node) (member_type : Node)
  | error (message : String)

end

def Node.common : Node → NodeCommon
  | .mk c _ => c

def Node.variant : Node → NodeVariant
  | .mk _ v => v

/-- Assignment to a common attribute of an `ast::Node`. -/
def Node.withCommon (n : Node) (f : NodeCommon → NodeCommon) : Node :=
  match n with
  | .mk c v => .mk (f c) v

/-- `stabs_field_visibility_to_access_specifier` (`stabs_to_ast.cpp` lines
759-770). -/
def stabs_field_visibility_to_access_specifier : Visibility → AccessSpecifier
  | .NONE => .AS_PUBLIC
  | .PUBLIC => .AS_PUBLIC
  | .PROTECTED => .AS_PROTECTED
  | .PRIVATE => .AS_PRIVATE
  | .PUBLIC_OPTIMIZED_OUT => .AS_PUBLIC

/-- `ParserFlags` (spec section 6): the three recognized flag bits. -/
structure ParserFlags where
  strict_parsing : Bool := false
  no_member_functions : Bool := false
  no_generated_member_functions : Bool := false
deriving DecidableEq, Repr

/-- `DemanglerFunctions`: the optional `cplus_demangle_opname` hook; a
`none` return models a null pointer result. -/
structure DemanglerFunctions where
  cplus_demangle_opname : Option (String → Option String) := none

/-- `StabsToAstState` (from `stabs_to_ast.h`): the per-file type-number
index (`std::map` keyed by type number, modelled as an association list
with the map's unique keys), the file handle, the parser flags and the
demangler hook. -/
structure StabsToAstState where
  file_handle : Int
  stabs_types : List (StabsTypeNumber × StabsType)
  parser_flags : ParserFlags
  demangler : DemanglerFunctions

/-- `MemberFunctionInfo` (`stabs_to_ast.cpp` lines 13-18). -/
structure MemberFunctionInfo where
  name : String := ""
  is_constructor_or_destructor : Bool := false
  is_special_member_function : Bool := false
  is_operator_member_function : Bool := false
deriving DecidableEq, Repr

/-- `check_member_function` (`stabs_to_ast.cpp` lines 716-757): demangle
the set name when a hook is present (an empty result falls back to the
mangled name), then classify constructors, destructors, `$_` thunks and
`operator=`. -/
def check_member_function (mangled_name : String)
    (type_name_no_template_args : String) (demangler : DemanglerFunctions) :
    MemberFunctionInfo :=
  let demangled : String :=
    match demangler.cplus_demangle_opname with
    | some hook =>
      match hook mangled_name with
      | some demangled_name => demangled_name
      | none => ""
    | none => ""
  let name := if demangled.data.isEmpty then mangled_name else demangled
  let is_constructor :=
    name == "__ct" || name == "__comp_ctor" || name == "__base_ctor" ||
    (!type_name_no_template_args.data.isEmpty && name == type_name_no_template_args)
  let is_destructor :=
    name == "__dt" || name == "__comp_dtor" || name == "__base_dtor" ||
    name == "__deleting_dtor" ||
    (!name.data.isEmpty && name.data.headD '\x00' == '~' &&
      String.mk (name.data.drop 1) == type_name_no_template_args)
  let is_ctor_or_dtor := is_constructor || is_destructor || str_starts_with name "$_"
  { name := name
    is_constructor_or_destructor := is_ctor_or_dtor
    is_special_member_function := is_ctor_or_dtor || name == "operator="
    is_operator_member_function := false }

/-- One step of the type-resolution loop of `detect_bitfield`
(`stabs_to_ast.cpp` lines 564-590).  `entry` records which index entry the
current type was read from (`none` when it is the field's own type object
or the inner object of a reference or qualifier), so that the source's
pointer comparison `next_type->second == type` — the found entry is the
entry the current type came from — can be expressed. -/
inductive BitfieldStep where
  | bail
  | terminal
  | next (type : StabsType) (entry : Option Nat)

def detect_bitfield_step (state : StabsToAstState) (type : StabsType)
    (entry : Option Nat) : BitfieldStep :=
  match type.body with
  | none =>
    if type.anonymous then .bail
    else
      match state.stabs_types.findIdx? (fun e => e.1 == type.type_number) with
      | none => .bail
      | some i =>
        if entry == some i then .bail
        else
          match state.stabs_types[i]? with
          | some e => .next e.2 (some i)
          | none => .bail
  | some (.TYPE_REFERENCE inner) => .next inner none
  | some (.CONST_QUALIFIER inner) => .next inner none
  | some (.VOLATILE_QUALIFIER inner) => .next inner none
  | some _ => .terminal

/-- The resolution loop of `detect_bitfield`: at most 50 steps through
type references, qualifiers and body-less index lookups; `none` models the
`return false` bail-outs (anonymous type, lookup miss, self-cycle, or the
`i == 49` step-count cap). -/
def detect_bitfield_resolve (state : StabsToAstState) :
    Nat → StabsType → Option Nat → Option StabsType
  | 0, _, _ => none
  | fuel + 1, type, entry =>
    match detect_bitfield_step state type entry with
    | .bail => none
    | .terminal => some type
    | .next next_type next_entry => detect_bitfield_resolve state fuel next_type next_entry

/-- `detect_bitfield` (`stabs_to_ast.cpp` lines 557-627): static fields
are never bitfields; otherwise resolve the field type, read an underlying
bit size off the resolved descriptor (`.ok none` models the `return false`
arms of the switch), treat a zero size as not-a-bitfield, and finally
compare with the field's declared size. -/
def detect_bitfield (field : StabsField) (state : StabsToAstState) : Result Bool :=
  if field.is_static then .ok false
  else
    match detect_bitfield_resolve state 50 field.type none with
    | none => .ok false
    | some type =>
      let underlying : Result (Option Int) :=
        match type.body with
        | some (.RANGE low high) =>
          (classify_range ⟨low, high⟩).map (fun bclass => some (builtin_class_size bclass * 8))
        | some (.CROSS_REFERENCE kind _) =>
          .ok (if kind == .ENUM then some 32 else none)
        | some (.TYPE_ATTRIBUTE _ size_bits) => .ok (some size_bits)
        | some (.BUILTIN _) => .ok (some 8)
        | _ => .ok none
      match underlying with
      | .error e => .error e
      | .ok none => .ok false
      | .ok (some underlying_type_size_bits) =>
        if underlying_type_size_bits == 0 then .ok false
        else .ok (field.size_bits != underlying_type_size_bits)

/-- The message of the depth guard (`stabs_to_ast.cpp` line 48). -/
def call_depth_message : String :=
  "Call depth greater than 200 in stabs_type_to_ast, probably infinite recursion."

/-- An `ast::Error` node carrying a message. -/
def error_node (message : String) : Node := .mk {} (.error message)

/-- The result of the `depth > 200` guard (`stabs_to_ast.cpp` lines
47-56): a failure under `STRICT_PARSING`, an `Error` node otherwise. -/
def call_depth_result (state : StabsToAstState) : Result Node :=
  if state.parser_flags.strict_parsing then .error (.fail call_depth_message)
  else .ok (error_node call_depth_message)

/-- The type of the lowering entry point, abstracted so that the helpers
below can be written against the recursive occurrence. -/
abbrev LowerFun : Type :=
  StabsType → Option StabsType → StabsToAstState → Nat → Bool → Bool → Result Node

/-- `field_to_ast` (`stabs_to_ast.cpp` lines 498-555), written against the
recursive occurrence `recur` of `stabs_type_to_ast`. -/
def field_to_ast_with (recur : LowerFun) (field : StabsField)
    (enclosing_struct : StabsType) (state : StabsToAstState) (depth : Nat) :
    Result Node := do
  let is_bitfield ← detect_bitfield field state
  if is_bitfield then do
    let bitfield_node ← recur field.type (some enclosing_struct) state (depth + 1) true false
    pure (Node.mk
      { name := if field.name == " " then "" else field.name
        offset_bytes := field.offset_bits.tdiv 8
        size_bits := field.size_bits
        access_specifier := stabs_field_visibility_to_access_specifier field.visibility }
      (.bitField bitfield_node (field.offset_bits.tmod 8)))
  else do
    let node ← recur field.type (some enclosing_struct) state (depth + 1) true false
    let node := node.withCommon (fun c =>
      { c with
        name := field.name
        offset_bytes := field.offset_bits.tdiv 8
        size_bits := field.size_bits
        access_specifier := stabs_field_visibility_to_access_specifier field.visibility })
    let node :=
      if str_starts_with field.name "$vf" || str_starts_with field.name "_vptr$" ||
          str_starts_with field.name "_vptr." then
        node.withCommon (fun c => { c with is_vtable_pointer := true })
      else node
    let node :=
      if field.is_static then
        node.withCommon (fun c => { c with storage_class := .STATIC })
      else node
    pure node

/-- `std::string_view(*type.name).substr(0, type.name->find("<"))`
(`stabs_to_ast.cpp` lines 636-640); empty when the type has no name. -/
def type_name_no_template_args_of (name : Option String) : String :=
  match name with
  | some n => String.mk (n.data.takeWhile (fun c => c != '<'))
  | none => ""

/-- The per-overload "special" test of the first
`NO_GENERATED_MEMBER_FUNCTIONS` pass (`stabs_to_ast.cpp` lines 648-656);
`parameter_count` stays 0 for anything that is not a METHOD. -/
def generated_special (set_name : String) (type_name_no_template_args : String)
    (parameter_count : Nat) : Bool :=
  set_name == "__as" || set_name == "operator=" || str_starts_with set_name "$" ||
  (set_name == type_name_no_template_args && parameter_count == 0)

/-- The first pass of the `NO_GENERATED_MEMBER_FUNCTIONS` filter
(`stabs_to_ast.cpp` lines 643-666): every FUNCTION or METHOD overload must
be special; overloads with other descriptors do not participate. -/
def only_generated_special (type_name_no_template_args : String)
    (sets : List StabsMemberFunctionSet) : Bool :=
  sets.all (fun function_set => function_set.overloads.all (fun stabs_func =>
    match stabs_func.type.body with
    | some (.FUNCTION _) => generated_special function_set.name type_name_no_template_args 0
    | some (.METHOD _ parameter_types) =>
      generated_special function_set.name type_name_no_template_args parameter_types.length
    | _ => true))

/-- The overload emission loop of `member_functions_to_ast`
(`stabs_to_ast.cpp` lines 682-706). -/
def emit_overloads_with (recur : LowerFun) (enclosing : StabsType)
    (state : StabsToAstState) (depth : Nat) (info : MemberFunctionInfo) :
    List StabsMemberFunction → Result (List Node)
  | [] => .ok []
  | stabs_func :: rest => do
    let node ← recur stabs_func.type (some enclosing) state (depth + 1) true true
    let node := node.withCommon (fun c =>
      { c with
        is_constructor_or_destructor := info.is_constructor_or_destructor
        is_special_member_function := info.is_special_member_function
        is_operator_member_function := info.is_operator_member_function
        name := info.name
        access_specifier := stabs_field_visibility_to_access_specifier stabs_func.visibility })
    let node :=
      match node with
      | .mk c (.function return_type parameters _ _) =>
        Node.mk c (.function return_type parameters stabs_func.modifier stabs_func.vtable_index)
      | other => other
    let rest_nodes ← emit_overloads_with recur enclosing state depth info rest
    pure (node :: rest_nodes)

/-- The set emission loop of `member_functions_to_ast` (`stabs_to_ast.cpp`
lines 672-707), also accumulating the second `only_special_functions`
flag. -/
def emit_sets_with (recur : LowerFun) (enclosing : StabsType)
    (type_name_no_template_args : String) (state : StabsToAstState) (depth : Nat) :
    List StabsMemberFunctionSet → Result (List Node × Bool)
  | [] => .ok ([], true)
  | function_set :: rest => do
    let info := check_member_function function_set.name type_name_no_template_args state.demangler
    let nodes ← emit_overloads_with recur enclosing state depth info function_set.overloads
    let (rest_nodes, rest_special) ←
      emit_sets_with recur enclosing type_name_no_template_args state depth rest
    pure (nodes ++ rest_nodes, info.is_special_member_function && rest_special)

/-- `member_functions_to_ast` (`stabs_to_ast.cpp` lines 629-714), written
against the recursive occurrence `recur`.  `type` is the struct or union
being lowered (the C++ `StabsStructOrUnionType` is the same object as the
enclosing `StabsType`); `sets` is its member function list. -/
def member_functions_to_ast_with (recur : LowerFun) (type : StabsType)
    (sets : List StabsMemberFunctionSet) (state : StabsToAstState) (depth : Nat) :
    Result (List Node) :=
  if state.parser_flags.no_member_functions then .ok []
  else
    let type_name_no_template_args := type_name_no_template_args_of type.name
    if state.parser_flags.no_generated_member_functions &&
        only_generated_special type_name_no_template_args sets then .ok []
    else do
      let (member_functions, only_special_functions) ←
        emit_sets_with recur type type_name_no_template_args state depth sets
      if only_special_functions && state.parser_flags.no_generated_member_functions then
        pure []
      else
        pure member_functions

/-- The base class loop of the STRUCT/UNION case (`stabs_to_ast.cpp` lines
262-277). -/
def base_classes_with (recur : LowerFun) (enclosing : StabsType)
    (state : StabsToAstState) (depth : Nat) (force_substitute : Bool) :
    List StabsBaseClass → Result (List Node)
  | [] => .ok []
  | stabs_base_class :: rest => do
    let base_class ← recur stabs_base_class.type (some enclosing) state (depth + 1) true force_substitute
    let base_class := base_class.withCommon (fun c =>
      { c with
        is_base_class := true
        offset_bytes := stabs_base_class.offset
        access_specifier := stabs_field_visibility_to_access_specifier stabs_base_class.visibility })
    let rest_nodes ← base_classes_with recur enclosing state depth force_substitute rest
    pure (base_class :: rest_nodes)

/-- The field loop of the STRUCT/UNION case (`stabs_to_ast.cpp` lines
280-284). -/
def fields_with (recur : LowerFun) (enclosing : StabsType)
    (state : StabsToAstState) (depth : Nat) : List StabsField → Result (List Node)
  | [] => .ok []
  | field :: rest => do
    let node ← field_to_ast_with recur field enclosing state depth
    let rest_nodes ← fields_with recur enclosing state depth rest
    pure (node :: rest_nodes)

/-- The parameter loop of the METHOD case (`stabs_to_ast.cpp` lines
336-346). -/
def method_parameters_with (recur : LowerFun) (enclosing_struct : Option StabsType)
    (state : StabsToAstState) (depth : Nat) : List StabsType → Result (List Node)
  | [] => .ok []
  | parameter_type :: rest => do
    let parameter_node ← recur parameter_type enclosing_struct state (depth + 1) true true
    let rest_nodes ← method_parameters_with recur enclosing_struct state depth rest
    pure (parameter_node :: rest_nodes)

/-- The STRUCT/UNION case of `stabs_type_to_ast` (`stabs_to_ast.cpp` lines
249-296). -/
def struct_or_union_with (recur : LowerFun) (type : StabsType)
    (state : StabsToAstState) (depth : Nat) (force_substitute : Bool)
    (is_struct : Bool) (size : Int) (base_classes : List StabsBaseClass)
    (fields : List StabsField) (member_functions : List StabsMemberFunctionSet) :
    Result Node := do
  let base_nodes ← base_classes_with recur type state depth force_substitute base_classes
  let field_nodes ← fields_with recur type state depth fields
  let member_function_nodes ← member_functions_to_ast_with recur type member_functions state depth
  pure (Node.mk { size_bits := size * 8 }
    (.structOrUnion is_struct base_nodes field_nodes member_function_nodes))

/-- One unfolding of `stabs_type_to_ast` (`stabs_to_ast.cpp` lines
32-439): the depth guard, the two name-substitution rules, the body-less
lookup and the descriptor dispatch, with every recursive call going
through `recur`. -/
def stabs_type_to_ast_step (recur : LowerFun) : LowerFun :=
  fun type enclosing_struct state depth substitute_type_name force_substitute =>
  if depth > 200 then call_depth_result state
  else
    let substituted : Option Node :=
      match type.name with
      | none => none
      | some n =>
        let try_substitute := decide (depth > 0) &&
          (type.is_root || type.is_range_descriptor || type.is_builtin_descriptor)
        let is_name_empty := n == "" || n == " "
        let is_cross_reference := type.is_cross_reference_descriptor
        let is_void := n == "void" || n == "__builtin_va_list"
        if (substitute_type_name || try_substitute) && !is_name_empty &&
            !is_cross_reference && !is_void then
          some (Node.mk {} (.typeName .REFERENCE (some
            { type_name := n
              referenced_file_handle := state.file_handle
              stabs_type_number_file := type.type_number.file
              stabs_type_number_type := type.type_number.type })))
        else none
    match substituted with
    | some node => .ok node
    | none =>
      let can_compare_type_numbers :=
        match enclosing_struct with
        | some enclosing => !type.anonymous && !enclosing.anonymous
        | none => false
      let same_type_number :=
        match enclosing_struct with
        | some enclosing => type.type_number == enclosing.type_number
        | none => false
      if force_substitute && can_compare_type_numbers && same_type_number then
        .ok (Node.mk {} (.typeName .THIS (some
          { referenced_file_handle := state.file_handle
            stabs_type_number_file := type.type_number.file
            stabs_type_number_type := type.type_number.type })))
      else
        match type.body with
        | none =>
          if type.anonymous then .error (.fail "Cannot lookup type (type is anonymous).")
          else
            match state.stabs_types.find? (fun e => e.1 == type.type_number) with
            | none =>
              let error_message := "Failed to lookup STABS type by its type number (" ++
                toString type.type_number.file ++ "," ++ toString type.type_number.type ++ ")."
              if state.parser_flags.strict_parsing then .error (.fail error_message)
              else .ok (error_node error_message)
            | some entry =>
              recur entry.2 enclosing_struct state (depth + 1) substitute_type_name force_substitute
        | some descriptor =>
          match descriptor with
          | .TYPE_REFERENCE referenced =>
            if type.anonymous || referenced.anonymous ||
                !(referenced.type_number == type.type_number) then
              recur referenced enclosing_struct state (depth + 1) substitute_type_name force_substitute
            else
              .ok (Node.mk {} (.builtIn .VOID))
          | .ARRAY index_type element_type => do
            let element_node ← recur element_type enclosing_struct state (depth + 1) true force_substitute
            match index_type.body with
            | some (.RANGE low high) =>
              match strtoll low 10 with
              | none => .error (.fail "Failed to parse low part of range as integer.")
              | some low_value =>
                if !(low_value == 0) then .error (.fail "Invalid index type for array.")
                else
                  match strtoll high 10 with
                  | none => .error (.fail "Failed to parse low part of range as integer.")
                  | some high_value =>
                    pure (Node.mk {} (.array element_node
                      (if high_value == 4294967295 then 0 else high_value + 1)))
            | _ => .error .undefined
          | .ENUM fields =>
            .ok (Node.mk {} (.inlineEnum fields))
          | .FUNCTION return_type => do
            let node ← recur return_type enclosing_struct state (depth + 1) true force_substitute
            pure (Node.mk {} (.function (some node) none 0 (-1)))
          | .VOLATILE_QUALIFIER inner => do
            let node ← recur inner enclosing_struct state (depth + 1) substitute_type_name force_substitute
            pure (node.withCommon (fun c => { c with is_volatile := true }))
          | .CONST_QUALIFIER inner =>
            match recur inner enclosing_struct state (depth + 1) substitute_type_name force_substitute with
            | .error _ => .error .undefined
            | .ok node => .ok (node.withCommon (fun c => { c with is_const := true }))
          | .RANGE low high =>
            match classify_range ⟨low, high⟩ with
            | .error e => .error e
            | .ok bclass => .ok (Node.mk {} (.builtIn bclass))
          | .STRUCT size base_classes fields member_functions =>
            struct_or_union_with recur type state depth force_substitute
              true size base_classes fields member_functions
          | .UNION size base_classes fields member_functions =>
            struct_or_union_with recur type state depth force_substitute
              false size base_classes fields member_functions
          | .CROSS_REFERENCE kind identifier =>
            .ok (Node.mk {} (.typeName .CROSS_REFERENCE (some
              { type_name := identifier, type := some kind })))
          | .FLOATING_POINT_BUILTIN bytes =>
            .ok (Node.mk {} (.builtIn
              (if bytes == 1 then .UNSIGNED_8
               else if bytes == 2 then .UNSIGNED_16
               else if bytes == 4 then .UNSIGNED_32
               else if bytes == 8 then .UNSIGNED_64
               else if bytes == 16 then .UNSIGNED_128
               else .UNSIGNED_8)))
          | .METHOD return_type parameter_types => do
            let return_node ← recur return_type enclosing_struct state (depth + 1) true true
            let parameter_nodes ←
              method_parameters_with recur enclosing_struct state depth parameter_types
            pure (Node.mk {} (.function (some return_node) (some parameter_nodes) 0 (-1)))
          | .POINTER value_type => do
            let value_node ← recur value_type enclosing_struct state (depth + 1) true force_substitute
            pure (Node.mk {} (.pointerOrReference true value_node))
          | .REFERENCE value_type => do
            let value_node ← recur value_type enclosing_struct state (depth + 1) true force_substitute
            pure (Node.mk {} (.pointerOrReference false value_node))
          | .TYPE_ATTRIBUTE inner size_bits => do
            let node ← recur inner enclosing_struct state (depth + 1) substitute_type_name force_substitute
            pure (node.withCommon (fun c => { c with size_bits := size_bits }))
          | .POINTER_TO_DATA_MEMBER class_type member_type => do
            let class_node ← recur class_type enclosing_struct state (depth + 1) true true
            let member_node ← recur member_type enclosing_struct state (depth + 1) true true
            pure (Node.mk {} (.pointerToDataMember class_node member_node))
          | .BUILTIN type_id =>
            if type_id == 16 then .ok (Node.mk {} (.builtIn .BOOL_8))
            else .error (.fail "Unknown built-in type!")

/-- The lowering engine, by structural recursion on the remaining call
budget.  The wrapper below instantiates the budget with `201 - depth`, so
budget exhaustion coincides exactly with the source's `depth > 200` guard
(at budget 0 the wrapper invariant gives `depth > 200`, and the guard's
result is returned). -/
def stabs_type_to_ast_go : Nat → LowerFun
  | 0 => fun _ _ state _ _ _ => call_depth_result state
  | fuel + 1 => stabs_type_to_ast_step (stabs_type_to_ast_go fuel)

/-- `stabs_type_to_ast` (`stabs_to_ast.cpp` lines 32-439). -/
def stabs_type_to_ast (type : StabsType) (enclosing_struct : Option StabsType)
    (state : StabsToAstState) (depth : Nat)
    (substitute_type_name force_substitute : Bool) : Result Node :=
  stabs_type_to_ast_go (201 - depth) type enclosing_struct state depth
    substitute_type_name force_substitute

/-- `field_to_ast` (`stabs_to_ast.cpp` lines 498-555); its recursive calls
run at `depth + 1`, hence the budget `200 - depth`. -/
def field_to_ast (field : StabsField) (enclosing_struct : StabsType)
    (state : StabsToAstState) (depth : Nat) : Result Node :=
  field_to_ast_with (stabs_type_to_ast_go (200 - depth)) field enclosing_struct state depth

/-- `member_functions_to_ast` (`stabs_to_ast.cpp` lines 629-714). -/
def member_functions_to_ast (type : StabsType) (sets : List StabsMemberFunctionSet)
    (state : StabsToAstState) (depth : Nat) : Result (List Node) :=
  member_functions_to_ast_with (stabs_type_to_ast_go (200 - depth)) type sets state depth

/-! ### Range classification against the spec (claim C1) -/

/-- The literal table as the spec states it (section 4.4.5 step 1: the
table "is given in the source excerpt of this repository and must be
reproduced verbatim"). -/
def classify_range_spec_strings : List (String × String × BuiltInClass) :=
  [ ("4", "0", .FLOAT_32),
    ("000000000000000000000000", "001777777777777777777777", .UNSIGNED_64),
    ("00000000000000000000000000000000000000000000", "00000000000000000000001777777777777777777777", .UNSIGNED_64),
    ("0000000000000", "01777777777777777777777", .UNSIGNED_64),
    ("0", "18446744073709551615", .UNSIGNED_64),
    ("001000000000000000000000", "000777777777777777777777", .SIGNED_64),
    ("00000000000000000000001000000000000000000000", "00000000000000000000000777777777777777777777", .SIGNED_64),
    ("01000000000000000000000", "0777777777777777777777", .SIGNED_64),
    ("-9223372036854775808", "9223372036854775807", .SIGNED_64),
    ("8", "0", .FLOAT_64),
    ("00000000000000000000000000000000000000000000", "03777777777777777777777777777777777777777777", .UNSIGNED_128),
    ("02000000000000000000000000000000000000000000", "01777777777777777777777777777777777777777777", .SIGNED_128),
    ("000000000000000000000000", "0377777777777777777777777777777777", .UNQUALIFIED_128),
    ("16", "0", .FLOAT_128),
    ("0", "-1", .UNQUALIFIED_128) ]

/-- The numeric rows as the spec states them (section 4.4.5 step 2,
"Rows (exhaustive)"). -/
def classify_range_spec_rows : List (Int × Int × BuiltInClass) :=
  [ (0, 255, .UNSIGNED_8),
    (-128, 127, .SIGNED_8),
    (0, 127, .UNQUALIFIED_8),
    (0, 65535, .UNSIGNED_16),
    (-32768, 32767, .SIGNED_16),
    (0, 4294967295, .UNSIGNED_32),
    (-2147483648, 2147483647, .SIGNED_32) ]

/-- Range classification written from the spec's words (section 4.4.5):
first the literal string table; when no literal entry matches, parse
`low` and `high` as signed 64-bit integers using base 8 when the string
begins with `0`, else base 10, and return the class of the first row
`(lo, hi, cls)` with `(lo == low ∨ lo == -low) ∧ hi == high`; `none`
when classification fails. -/
def classify_range_spec (low high : String) : Option BuiltInClass :=
  match classify_range_spec_strings.find? (fun r => r.1 == low && r.2.1 == high) with
  | some r => some r.2.2
  | none =>
    match strtoll low (if str_starts_with low "0" then 8 else 10),
        strtoll high (if str_starts_with high "0" then 8 else 10) with
    | some low_value, some high_value =>
      (classify_range_spec_rows.find?
        (fun r => (r.1 == low_value || r.1 == -low_value) && r.2.1 == high_value)).map
        (fun r => r.2.2)
    | _, _ => none

theorem starts_with_zero (s : String) :
    str_starts_with s "0" = (s.data.headD '\x00' == '0') := by
  show (['0'] : List Char).isPrefixOf s.data = (s.data.headD '\x00' == '0')
  cases s.data with
  | nil => decide
  | cons c cs => simp [List.isPrefixOf, List.headD, beq_iff_eq, eq_comm]

theorem classify_range_agrees (low high : String) :
    (classify_range ⟨low, high⟩).toOption = classify_range_spec low high := by
  have hbl : (if str_starts_with low "0" then (8 : Nat) else 10) =
      (if low.data.headD '\x00' = '0' then (8 : Nat) else 10) := by
    rw [starts_with_zero]
    by_cases h : low.data.headD '\x00' = '0' <;> simp [h]
  have hbh : (if str_starts_with high "0" then (8 : Nat) else 10) =
      (if high.data.headD '\x00' = '0' then (8 : Nat) else 10) := by
    rw [starts_with_zero]
    by_cases h : high.data.headD '\x00' = '0' <;> simp [h]
  unfold classify_range classify_range_spec
  dsimp only
  rw [show classify_range_spec_strings = classify_range_strings from rfl]
  rw [show classify_range_spec_rows = classify_range_integers from rfl]
  rw [hbl, hbh]
  cases classify_range_strings.find? (fun r => r.1 == low && r.2.1 == high) with
  | some r => rfl
  | none =>
    cases hl : strtoll low (if low.data.headD '\x00' = '0' then 8 else 10) with
    | none =>
      cases hh : strtoll high (if high.data.headD '\x00' = '0' then 8 else 10) <;> rfl
    | some lv =>
      cases hh : strtoll high (if high.data.headD '\x00' = '0' then 8 else 10) with
      | none => rfl
      | some hv =>
        cases hf : classify_range_integers.find?
            (fun r => (r.1 == lv || r.1 == -lv) && r.2.1 == hv) <;>
          simp [Except.toOption, hf]

/-- C1: for every RANGE type, `classify_range` first consults the literal
string table (which includes the `{"0","-1"} → UNQUALIFIED_128`,
`{"4","0"} → FLOAT_32`, `{"8","0"} → FLOAT_64`, `{"16","0"} → FLOAT_128`
and `{"0","18446744073709551615"} → UNSIGNED_64` entries); when no literal
entry matches it parses the bounds as signed 64-bit integers (base 8 on a
leading '0', else base 10) and returns the class of a numeric-table row
`(lo, hi, cls)` exactly when `(lo == low ∨ lo == -low) ∧ hi == high` over
the seven exhaustive rows, and otherwise fails (the code's
`UnclassifiedRange` failure, message "Failed to classify range."). -/
theorem C1_classify_range :
    (∀ low high c, classify_range ⟨low, high⟩ = .ok c ↔ classify_range_spec low high = some c) ∧
    (∀ low high, classify_range_spec low high = none →
      ∃ e, classify_range ⟨low, high⟩ = .error e) ∧
    classify_range ⟨"0", "-1"⟩ = .ok .UNQUALIFIED_128 ∧
    classify_range ⟨"4", "0"⟩ = .ok .FLOAT_32 ∧
    classify_range ⟨"8", "0"⟩ = .ok .FLOAT_64 ∧
    classify_range ⟨"16", "0"⟩ = .ok .FLOAT_128 ∧
    classify_range ⟨"0", "18446744073709551615"⟩ = .ok .UNSIGNED_64 := by
  refine ⟨?_, ?_, rfl, rfl, rfl, rfl, rfl⟩
  · intro low high c
    have h := classify_range_agrees low high
    constructor
    · intro hok; rw [← h, hok]; rfl
    · intro hspec
      rw [← h] at hspec
      cases hc : classify_range ⟨low, high⟩ with
      | ok v => rw [hc] at hspec; simp [Except.toOption] at hspec; rw [hspec]
      | error e => rw [hc] at hspec; simp [Except.toOption] at hspec
  · intro low high hspec
    have h := classify_range_agrees low high
    rw [← h] at hspec
    cases hc : classify_range ⟨low, high⟩ with
    | ok v => rw [hc] at hspec; simp [Except.toOption] at hspec
    | error e => exact ⟨e, rfl⟩

/-- Witness for C1 at concrete inputs: the ok-iff at a numeric row match
and the failure case at an unclassifiable range. -/
theorem C1_classify_range_witness :
    classify_range ⟨"0", "255"⟩ = .ok .UNSIGNED_8 ∧
    ∃ e, classify_range ⟨"1", "1"⟩ = .error e :=
  ⟨(C1_classify_range.1 "0" "255" .UNSIGNED_8).2 rfl,
   C1_classify_range.2.1 "1" "1" rfl⟩

/-! ### Unfolding helpers for the lowering engine -/

theorem stabs_type_to_ast_unfold (type : StabsType) (enclosing : Option StabsType)
    (state : StabsToAstState) (depth : Nat) (s f : Bool) (h : depth ≤ 200) :
    stabs_type_to_ast type enclosing state depth s f =
      stabs_type_to_ast_step (stabs_type_to_ast_go (200 - depth)) type enclosing state depth s f := by
  unfold stabs_type_to_ast
  rw [show 201 - depth = (200 - depth) + 1 from by omega]
  rfl

theorem stabs_type_to_ast_depth_succ (type : StabsType) (enclosing : Option StabsType)
    (state : StabsToAstState) (depth : Nat) (a b : Bool) :
    stabs_type_to_ast_go (200 - depth) type enclosing state (depth + 1) a b =
      stabs_type_to_ast type enclosing state (depth + 1) a b := by
  unfold stabs_type_to_ast
  rw [show 201 - (depth + 1) = 200 - depth from by omega]

/-! ### Claim C8: the recursion guard -/

/-- A body-less type whose type number resolves, through the per-file
index, to itself: the simplest cycle in the STABS type-number graph. -/
def c8_cycle_type : StabsType := .mk ⟨1, 1⟩ false none false none

def c8_lenient_state : StabsToAstState :=
  { file_handle := 0, stabs_types := [(⟨1, 1⟩, c8_cycle_type)], parser_flags := {},
    demangler := {} }

def c8_strict_state : StabsToAstState :=
  { c8_lenient_state with parser_flags := { strict_parsing := true } }

set_option maxRecDepth 100000 in
/-- C8: for every call with depth > 200, `stabs_type_to_ast` produces an
`Error` node carrying the call-depth message under lenient parsing and
fails with the same message under `STRICT_PARSING`; consequently (second
and third conjuncts) lowering a self-referential type-number cycle
terminates with exactly that error node (lenient) or failure (strict). -/
theorem C8_call_depth :
    (∀ (type : StabsType) (enclosing : Option StabsType) (state : StabsToAstState)
        (depth : Nat) (s f : Bool), depth > 200 →
      stabs_type_to_ast type enclosing state depth s f =
        (if state.parser_flags.strict_parsing then .error (.fail call_depth_message)
         else .ok (error_node call_depth_message))) ∧
    stabs_type_to_ast c8_cycle_type none c8_lenient_state 0 false false =
      .ok (error_node call_depth_message) ∧
    stabs_type_to_ast c8_cycle_type none c8_strict_state 0 false false =
      .error (.fail call_depth_message) := by
  refine ⟨?_, rfl, rfl⟩
  intro type enclosing state depth s f h
  unfold stabs_type_to_ast
  rw [show 201 - depth = 0 from by omega]
  rfl

/-- Witness for C8 at a concrete call with depth 201. -/
theorem C8_call_depth_witness :
    stabs_type_to_ast c8_cycle_type none c8_lenient_state 201 false false =
      .ok (error_node call_depth_message) :=
  (C8_call_depth.1 c8_cycle_type none c8_lenient_state 201 false false (by decide)).trans rfl

/-! ### Claim C10: body-less anonymous types -/

/-- C10: a body-less anonymous type makes `stabs_type_to_ast` fail with
"Cannot lookup type (type is anonymous)." in both parser modes (the
failure is raised before the mode is consulted), while the lenient
conversion of a lookup failure into an `Error` node applies only to
type-number index misses on non-anonymous body-less types (second
conjunct: strict fails, lenient yields the `Error` node). -/
theorem C10_anonymous_lookup :
    (∀ (type : StabsType) (enclosing : Option StabsType) (state : StabsToAstState)
        (depth : Nat) (s f : Bool),
      depth ≤ 200 → type.body = none → type.anonymous = true → type.name = none →
      stabs_type_to_ast type enclosing state depth s f =
        .error (.fail "Cannot lookup type (type is anonymous).")) ∧
    (∀ (type : StabsType) (state : StabsToAstState) (depth : Nat) (s f : Bool),
      depth ≤ 200 → type.body = none → type.anonymous = false → type.name = none →
      state.stabs_types.find? (fun e => e.1 == type.type_number) = none →
      stabs_type_to_ast type none state depth s f =
        (if state.parser_flags.strict_parsing then
          .error (.fail ("Failed to lookup STABS type by its type number (" ++
            toString type.type_number.file ++ "," ++ toString type.type_number.type ++ ")."))
         else .ok (error_node ("Failed to lookup STABS type by its type number (" ++
            toString type.type_number.file ++ "," ++ toString type.type_number.type ++ ").")))) := by
  constructor
  · intro type enclosing state depth s f hdepth hbody hanon hname
    rw [stabs_type_to_ast_unfold type enclosing state depth s f hdepth]
    have hngt : ¬ depth > 200 := by omega
    cases enclosing <;>
      simp [stabs_type_to_ast_step, hname, hbody, hanon, hngt]
  · intro type state depth s f hdepth hbody hanon hname hfind
    rw [stabs_type_to_ast_unfold type none state depth s f hdepth]
    have hngt : ¬ depth > 200 := by omega
    simp [stabs_type_to_ast_step, hname, hbody, hanon, hngt, hfind, error_node]

def c10_anonymous_type : StabsType := .mk ⟨9, 9⟩ true none false none

def c10_missing_type : StabsType := .mk ⟨9, 8⟩ false none false none

def c10_state : StabsToAstState :=
  { file_handle := 0, stabs_types := [], parser_flags := {}, demangler := {} }

/-- Witness for C10 at concrete body-less types (lenient state). -/
theorem C10_anonymous_lookup_witness :
    stabs_type_to_ast c10_anonymous_type none c10_state 0 false false =
      .error (.fail "Cannot lookup type (type is anonymous).") ∧
    stabs_type_to_ast c10_missing_type none c10_state 0 false false =
      .ok (error_node ("Failed to lookup STABS type by its type number (" ++
        toString (9 : Int) ++ "," ++ toString (8 : Int) ++ ").")) :=
  ⟨C10_anonymous_lookup.1 c10_anonymous_type none c10_state 0 false false (by decide) rfl rfl rfl,
   (C10_anonymous_lookup.2 c10_missing_type c10_state 0 false false (by decide) rfl rfl rfl rfl).trans rfl⟩

/-! ### Claim C4: name substitution -/

/-- C4: for every type whose name is non-empty, not " ", not "void" and
not "__builtin_va_list", whose descriptor is not CROSS_REFERENCE, and for
which the caller requested substitution or `depth > 0` and the type is a
root or a RANGE or BUILTIN descriptor, `stabs_type_to_ast` emits a
`TypeName` node with source REFERENCE carrying the name, the file handle
and the type number pair, without expanding the type's body. -/
theorem C4_name_substitution :
    ∀ (type : StabsType) (enclosing : Option StabsType) (state : StabsToAstState)
      (depth : Nat) (substitute_type_name force_substitute : Bool) (n : String),
      depth ≤ 200 →
      type.name = some n →
      n ≠ "" → n ≠ " " → n ≠ "void" → n ≠ "__builtin_va_list" →
      type.is_cross_reference_descriptor = false →
      (substitute_type_name = true ∨
        (0 < depth ∧ (type.is_root = true ∨ type.is_range_descriptor = true ∨
          type.is_builtin_descriptor = true))) →
      stabs_type_to_ast type enclosing state depth substitute_type_name force_substitute =
        .ok (Node.mk {} (.typeName .REFERENCE (some
          { type_name := n
            referenced_file_handle := state.file_handle
            stabs_type_number_file := type.type_number.file
            stabs_type_number_type := type.type_number.type }))) := by
  intro type enclosing state depth s f n hdepth hname h1 h2 h3 h4 hxref hcond
  rw [stabs_type_to_ast_unfold type enclosing state depth s f hdepth]
  have hngt : ¬ depth > 200 := by omega
  rcases hcond with hs | ⟨hd, hdesc⟩
  · simp [stabs_type_to_ast_step, hname, hngt, hs, hxref, h1, h2, h3, h4]
  · have hdec : decide (0 < depth) = true := decide_eq_true hd
    rcases hdesc with hr | hr | hr <;>
      simp [stabs_type_to_ast_step, hname, hngt, hxref, h1, h2, h3, h4, hd, hr]

def c4_named_type : StabsType := .mk ⟨3, 4⟩ false (some "Thing") true none

def c4_state : StabsToAstState :=
  { file_handle := 0, stabs_types := [], parser_flags := {}, demangler := {} }

/-- Witness for C4 at a concrete named root type at depth 1. -/
theorem C4_name_substitution_witness :
    stabs_type_to_ast c4_named_type none c4_state 1 false false =
      .ok (Node.mk {} (.typeName .REFERENCE (some
        { type_name := "Thing"
          referenced_file_handle := 0
          stabs_type_number_file := 3
          stabs_type_number_type := 4 }))) :=
  C4_name_substitution c4_named_type none c4_state 1 false false "Thing"
    (by decide) rfl (by decide) (by decide) (by decide) (by decide) rfl
    (Or.inr ⟨by decide, Or.inl rfl⟩)

/-! ### Claim C7: CONST_QUALIFIER error propagation (code bug) -/

def c7_missing_inner : StabsType := .mk ⟨2, 9⟩ false none false none

def c7_anonymous_inner : StabsType := .mk ⟨2, 5⟩ true none false none

def c7_const_missing : StabsType :=
  .mk ⟨2, 6⟩ false none false (some (.CONST_QUALIFIER c7_missing_inner))

def c7_volatile_missing : StabsType :=
  .mk ⟨2, 7⟩ false none false (some (.VOLATILE_QUALIFIER c7_missing_inner))

def c7_const_anonymous : StabsType :=
  .mk ⟨2, 2⟩ false none false (some (.CONST_QUALIFIER c7_anonymous_inner))

def c7_volatile_anonymous : StabsType :=
  .mk ⟨2, 3⟩ false none false (some (.VOLATILE_QUALIFIER c7_anonymous_inner))

def c7_strict_state : StabsToAstState :=
  { file_handle := 0, stabs_types := [], parser_flags := { strict_parsing := true },
    demangler := {} }

def c7_lenient_state : StabsToAstState :=
  { file_handle := 0, stabs_types := [], parser_flags := {}, demangler := {} }

/-- C7: when lowering the inner type of a CONST_QUALIFIER fails (an
unknown type number under STRICT_PARSING, or an anonymous body-less inner
type in either mode), the source dereferences the failed `Result`
(`result = std::move(*node);` without the `CCC_RETURN_IF_ERROR` check
every other case has) — undefined behaviour, modelled as the `undefined`
error — whereas the structurally identical VOLATILE_QUALIFIER case
returns the inner error to the caller, as the claim demands. -/
theorem C7_const_qualifier_error_propagation :
    stabs_type_to_ast c7_const_missing none c7_strict_state 0 false false =
      .error .undefined ∧
    stabs_type_to_ast c7_volatile_missing none c7_strict_state 0 false false =
      .error (.fail ("Failed to lookup STABS type by its type number (" ++
        toString (2 : Int) ++ "," ++ toString (9 : Int) ++ ").")) ∧
    stabs_type_to_ast c7_const_anonymous none c7_lenient_state 0 false false =
      .error .undefined ∧
    stabs_type_to_ast c7_volatile_anonymous none c7_lenient_state 0 false false =
      .error (.fail "Cannot lookup type (type is anonymous).") :=
  ⟨rfl, rfl, rfl, rfl⟩

/-! ### Claim C3: array bounds -/

/-- C3: for an ARRAY type whose index is a RANGE (element lowering
succeeding), a low bound that does not parse as decimal 0 fails the
lowering; otherwise the element count is 0 when the parsed high bound is
4294967295 and high + 1 in every other case. -/
theorem C3_array_bounds :
    ∀ (type index_type element_type : StabsType) (low high : String)
      (state : StabsToAstState) (depth : Nat) (s f : Bool) (element_node : Node),
      depth ≤ 200 →
      type.name = none →
      type.body = some (.ARRAY index_type element_type) →
      index_type.body = some (.RANGE low high) →
      stabs_type_to_ast element_type none state (depth + 1) true f = .ok element_node →
      ((strtoll low 10 = none →
          stabs_type_to_ast type none state depth s f =
            .error (.fail "Failed to parse low part of range as integer.")) ∧
       (∀ lv, strtoll low 10 = some lv → lv ≠ 0 →
          stabs_type_to_ast type none state depth s f =
            .error (.fail "Invalid index type for array.")) ∧
       (∀ hv, strtoll low 10 = some 0 → strtoll high 10 = some hv →
          stabs_type_to_ast type none state depth s f =
            .ok (Node.mk {} (.array element_node
              (if hv == 4294967295 then 0 else hv + 1))))) := by
  intro type index_type element_type low high state depth s f element_node
  intro hdepth hname hbody hidx helem
  rw [← stabs_type_to_ast_depth_succ element_type none state depth true f] at helem
  have hngt : ¬ depth > 200 := by omega
  refine ⟨?_, ?_, ?_⟩
  · intro hlow
    rw [stabs_type_to_ast_unfold type none state depth s f hdepth]
    simp [stabs_type_to_ast_step, hname, hbody, hidx, helem, hlow, hngt,
      Bind.bind, Except.bind]
  · intro lv hlow hlv
    rw [stabs_type_to_ast_unfold type none state depth s f hdepth]
    have : (lv == 0) = false := by simp [hlv]
    simp [stabs_type_to_ast_step, hname, hbody, hidx, helem, hlow, hngt, this,
      Bind.bind, Except.bind]
  · intro hv hlow hhigh
    rw [stabs_type_to_ast_unfold type none state depth s f hdepth]
    simp [stabs_type_to_ast_step, hname, hbody, hidx, helem, hlow, hhigh, hngt,
      Bind.bind, Except.bind, Pure.pure, Except.pure]

def c3_element : StabsType := .mk ⟨6, 2⟩ false none false (some (.RANGE "0" "255"))

def c3_negative_array : StabsType := .mk ⟨6, 1⟩ false none false
  (some (.ARRAY (.mk ⟨6, 3⟩ false none false (some (.RANGE "0" "-2"))) c3_element))

def c3_state : StabsToAstState :=
  { file_handle := 0, stabs_types := [], parser_flags := {}, demangler := {} }

/-- C3 counterexample: the claim asserts `high ≥ 0` in every non-wrapping
case, but the code accepts a negative high bound: for the range
`{low="0", high="-2"}` lowering succeeds with `element_count = -1`
(`high + 1` for `high = -2 < 0`). -/
theorem C3_counterexample :
    stabs_type_to_ast c3_negative_array none c3_state 0 false false =
      .ok (Node.mk {} (.array (Node.mk {} (.builtIn .UNSIGNED_8)) (-1))) ∧
    strtoll "-2" 10 = some (-2) ∧ (-2 : Int) < 0 :=
  ⟨rfl, rfl, by decide⟩

def c3_witness_array : StabsType := .mk ⟨6, 4⟩ false none false
  (some (.ARRAY (.mk ⟨6, 5⟩ false none false (some (.RANGE "0" "9"))) c3_element))

/-- Witness for C3: a ten-element array. -/
theorem C3_array_bounds_witness :
    stabs_type_to_ast c3_witness_array none c3_state 0 false false =
      .ok (Node.mk {} (.array (Node.mk {} (.builtIn .UNSIGNED_8))
        (if (9 : Int) == 4294967295 then 0 else 9 + 1))) :=
  (C3_array_bounds c3_witness_array (.mk ⟨6, 5⟩ false none false (some (.RANGE "0" "9")))
    c3_element "0" "9" c3_state 0 false false (Node.mk {} (.builtIn .UNSIGNED_8))
    (by decide) rfl rfl rfl rfl).2.2 9 rfl rfl

/-! ### Claim C2: bitfield detection -/

/-- The underlying bit size exactly as claim C2 words it: RANGE → the
classified built-in's byte size times 8, CROSS_REFERENCE to an ENUM → 32,
TYPE_ATTRIBUTE → its declared size_bits, BUILTIN → 8, anything else
disqualifies. -/
def c2_underlying_bits (type : StabsType) : Option Int :=
  match type.body with
  | some (.RANGE low high) =>
    match classify_range ⟨low, high⟩ with
    | .ok bclass => some (builtin_class_size bclass * 8)
    | .error _ => none
  | some (.CROSS_REFERENCE kind _) => if kind == .ENUM then some 32 else none
  | some (.TYPE_ATTRIBUTE _ size_bits) => some size_bits
  | some (.BUILTIN _) => some 8
  | _ => none

/-- The bitfield criterion exactly as claim C2 states it: not static, the
resolution (at most 50 steps) reaches a descriptor yielding an underlying
bit size, and that size differs from the field's `size_bits`. -/
def c2_claim_is_bitfield (field : StabsField) (state : StabsToAstState) : Bool :=
  !field.is_static &&
    (match detect_bitfield_resolve state 50 field.type none with
     | none => false
     | some t =>
       match c2_underlying_bits t with
       | none => false
       | some bits => field.size_bits != bits)

/-- The amended criterion: as the claim, but a zero underlying size also
disqualifies (the code's `underlying_type_size_bits == 0` guard). -/
def c2_amended_is_bitfield (field : StabsField) (state : StabsToAstState) : Bool :=
  !field.is_static &&
    (match detect_bitfield_resolve state 50 field.type none with
     | none => false
     | some t =>
       match c2_underlying_bits t with
       | none => false
       | some bits => !(bits == 0) && field.size_bits != bits)

def c2_field : StabsField := .mk "flags"
  (.mk ⟨3, 1⟩ false none false (some (.TYPE_ATTRIBUTE
    (.mk ⟨3, 2⟩ false none false (some (.RANGE "0" "255"))) 0)))
  0 5 false .PUBLIC

def c2_state : StabsToAstState :=
  { file_handle := 0, stabs_types := [], parser_flags := {}, demangler := {} }

/-- C2 counterexample: a non-static field of declared size 5 whose type
resolves to a TYPE_ATTRIBUTE with declared size_bits 0.  The claim's
criterion (underlying size 0 differs from 5) calls it a bitfield; the
code's zero-size guard does not. -/
theorem C2_counterexample :
    detect_bitfield c2_field c2_state = .ok false ∧
    c2_claim_is_bitfield c2_field c2_state = true ∧
    c2_field.is_static = false ∧ c2_field.size_bits = 5 :=
  ⟨rfl, rfl, rfl, rfl⟩

/-- C2 (amended): a field is detected as a bitfield iff it is not static
and the 50-step resolution yields a nonzero underlying bit size that
differs from the field's `size_bits`; a field so detected is lowered to a
BitField node with `offset_bytes = offset_bits / 8`,
`size_bits = field.size_bits`, `bitfield_offset_bits = offset_bits mod 8`
and name "" when the field's name is " ". -/
theorem C2_bitfield_detection :
    (∀ field state, detect_bitfield field state = .ok true ↔
      c2_amended_is_bitfield field state = true) ∧
    (∀ (field : StabsField) (enclosing : StabsType) (state : StabsToAstState)
        (depth : Nat) (node : Node),
      detect_bitfield field state = .ok true →
      stabs_type_to_ast field.type (some enclosing) state (depth + 1) true false = .ok node →
      field_to_ast field enclosing state depth = .ok (Node.mk
        { name := if field.name == " " then "" else field.name
          offset_bytes := field.offset_bits.tdiv 8
          size_bits := field.size_bits
          access_specifier := stabs_field_visibility_to_access_specifier field.visibility }
        (.bitField node (field.offset_bits.tmod 8)))) := by
  constructor
  · intro field state
    unfold detect_bitfield c2_amended_is_bitfield c2_underlying_bits
    cases hs : field.is_static with
    | true => simp
    | false =>
      cases hr : detect_bitfield_resolve state 50 field.type none with
      | none => simp [hr]
      | some t =>
        cases ht : t.body with
        | none => simp [hr, ht]
        | some d =>
          cases d with
          | RANGE low high =>
            cases hc : classify_range ⟨low, high⟩ with
            | error e => simp [hr, ht, hc, Except.map]
            | ok bclass =>
              by_cases hb : builtin_class_size bclass * 8 = 0 <;>
                simp [hr, ht, hc, hb, Except.map]
          | CROSS_REFERENCE kind identifier =>
            cases kind <;> simp [hr, ht]
          | TYPE_ATTRIBUTE inner size_bits =>
            by_cases hb : size_bits = 0 <;> simp [hr, ht, hb]
          | BUILTIN type_id => simp [hr, ht]
          | TYPE_REFERENCE inner => simp [hr, ht]
          | ARRAY a b => simp [hr, ht]
          | ENUM fields => simp [hr, ht]
          | FUNCTION r => simp [hr, ht]
          | VOLATILE_QUALIFIER i => simp [hr, ht]
          | CONST_QUALIFIER i => simp [hr, ht]
          | STRUCT a b c d => simp [hr, ht]
          | UNION a b c d => simp [hr, ht]
          | FLOATING_POINT_BUILTIN bytes => simp [hr, ht]
          | METHOD r p => simp [hr, ht]
          | POINTER v => simp [hr, ht]
          | REFERENCE v => simp [hr, ht]
          | POINTER_TO_DATA_MEMBER a b => simp [hr, ht]
  · intro field enclosing state depth node hdet hlow
    rw [← stabs_type_to_ast_depth_succ field.type (some enclosing) state depth true false] at hlow
    unfold field_to_ast field_to_ast_with
    simp [hdet, hlow, Bind.bind, Except.bind, Pure.pure, Except.pure]

def c2_witness_enclosing : StabsType := .mk ⟨3, 9⟩ false none false none

def c2_witness_field : StabsField := .mk " "
  (.mk ⟨3, 3⟩ false none false (some (.RANGE "0" "4294967295"))) 13 3 false .PRIVATE

/-- Witness for C2: a three-bit field at bit offset 13 over an unsigned
32-bit range type, with the GCC " " anonymous name. -/
theorem C2_bitfield_detection_witness :
    detect_bitfield c2_witness_field c2_state = .ok true ∧
    field_to_ast c2_witness_field c2_witness_enclosing c2_state 0 = .ok (Node.mk
      { name := ""
        offset_bytes := 1
        size_bits := 3
        access_specifier := .AS_PRIVATE }
      (.bitField (Node.mk {} (.builtIn .UNSIGNED_32)) 5)) := by
  constructor
  · exact (C2_bitfield_detection.1 c2_witness_field c2_state).2 rfl
  · have h := C2_bitfield_detection.2 c2_witness_field c8_cycle_type c2_state 0
      (Node.mk {} (.builtIn .UNSIGNED_32))
      ((C2_bitfield_detection.1 c2_witness_field c2_state).2 rfl) rfl
    exact h.trans rfl

/-! ### Claim C6: member function classification -/

/-- Constructor names as claim C6 words them: one of `__ct`,
`__comp_ctor`, `__base_ctor`, or the enclosing type's stripped name when
that name is non-empty. -/
def c6_is_constructor (name type_name_no_template_args : String) : Bool :=
  name == "__ct" || name == "__comp_ctor" || name == "__base_ctor" ||
  (!type_name_no_template_args.data.isEmpty && name == type_name_no_template_args)

/-- Destructor names as claim C6 words them: one of `__dt`, `__comp_dtor`,
`__base_dtor`, `__deleting_dtor`, or a `~` followed by the stripped type
name. -/
def c6_is_destructor (name type_name_no_template_args : String) : Bool :=
  name == "__dt" || name == "__comp_dtor" || name == "__base_dtor" ||
  name == "__deleting_dtor" ||
  (!name.data.isEmpty && name.data.headD '\x00' == '~' &&
    String.mk (name.data.drop 1) == type_name_no_template_args)

def c6_state : StabsToAstState :=
  { file_handle := 0, stabs_types := [], parser_flags := {}, demangler := {} }

def c6_foo_return : StabsType :=
  .mk ⟨4, 3⟩ false none false (some (.RANGE "-2147483648" "2147483647"))

def c6_foo_method : StabsType :=
  .mk ⟨4, 2⟩ false none false (some (.METHOD c6_foo_return []))

def c6_foo_struct : StabsType := .mk ⟨4, 1⟩ false (some "Foo") false
  (some (.STRUCT 4 [] [] [.mk "Foo" [.mk c6_foo_method .PUBLIC 0 (-1)]]))

set_option maxRecDepth 40000 in
/-- C6: `check_member_function` classifies the (optionally demangled) set
name as a constructor iff it is `__ct`/`__comp_ctor`/`__base_ctor` or the
non-empty stripped type name, as a destructor iff it is one of the four
destructor thunk names or `~` followed by the stripped type name;
`is_constructor_or_destructor` additionally holds for names starting with
"$_" and `is_special_member_function` additionally for `operator=`; with
no demangler the name is the mangled name — and for a struct `Foo` with a
member-function set `Foo` holding a zero-parameter METHOD overload, the
emitted Function is named "Foo" with both flags set. -/
theorem C6_check_member_function :
    (∀ (mangled type_name : String) (demangler : DemanglerFunctions),
      (check_member_function mangled type_name demangler).is_constructor_or_destructor =
        (c6_is_constructor (check_member_function mangled type_name demangler).name type_name ||
         c6_is_destructor (check_member_function mangled type_name demangler).name type_name ||
         str_starts_with (check_member_function mangled type_name demangler).name "$_") ∧
      (check_member_function mangled type_name demangler).is_special_member_function =
        ((check_member_function mangled type_name demangler).is_constructor_or_destructor ||
         (check_member_function mangled type_name demangler).name == "operator=")) ∧
    (∀ mangled type_name, (check_member_function mangled type_name {}).name = mangled) ∧
    check_member_function "Foo" "Foo" {} =
      { name := "Foo", is_constructor_or_destructor := true,
        is_special_member_function := true, is_operator_member_function := false } ∧
    stabs_type_to_ast c6_foo_struct none c6_state 0 false false =
      .ok (Node.mk { size_bits := 32 } (.structOrUnion true [] []
        [Node.mk { name := "Foo", is_constructor_or_destructor := true,
                   is_special_member_function := true }
           (.function (some (Node.mk {} (.builtIn .SIGNED_32))) (some []) 0 (-1))])) := by
  refine ⟨?_, ?_, rfl, rfl⟩
  · intro mangled type_name demangler
    constructor <;> rfl
  · intro mangled type_name
    rfl

/-! ### Claim C5: the NO_GENERATED_MEMBER_FUNCTIONS filter -/

/-- The per-overload "special" test exactly as claim C5 words it: the set
name equals `__as` or `operator=` or starts with `$`, or — for a METHOD
with zero parameters — equals the enclosing type's stripped name. -/
def c5_claim_special (set_name type_name_no_template_args : String)
    (is_method : Bool) (parameter_count : Nat) : Bool :=
  set_name == "__as" || set_name == "operator=" || str_starts_with set_name "$" ||
  (is_method && set_name == type_name_no_template_args && parameter_count == 0)

/-- "Every FUNCTION/METHOD overload is a special function" per the
original claim C5. -/
def c5_claim_all_special (type_name_no_template_args : String)
    (sets : List StabsMemberFunctionSet) : Bool :=
  sets.all (fun function_set => function_set.overloads.all (fun stabs_func =>
    match stabs_func.type.body with
    | some (.FUNCTION _) => c5_claim_special function_set.name type_name_no_template_args false 0
    | some (.METHOD _ parameter_types) =>
      c5_claim_special function_set.name type_name_no_template_args true parameter_types.length
    | _ => true))

/-- The amended per-overload test: the name-match rule applies to any
FUNCTION overload, and to a METHOD overload only with zero parameters. -/
def c5_amended_special (set_name type_name_no_template_args : String)
    (is_method : Bool) (parameter_count : Nat) : Bool :=
  set_name == "__as" || set_name == "operator=" || str_starts_with set_name "$" ||
  (set_name == type_name_no_template_args && (!is_method || parameter_count == 0))

/-- "Every FUNCTION/METHOD overload is a special function" per the
amended claim. -/
def c5_amended_all_special (type_name_no_template_args : String)
    (sets : List StabsMemberFunctionSet) : Bool :=
  sets.all (fun function_set => function_set.overloads.all (fun stabs_func =>
    match stabs_func.type.body with
    | some (.FUNCTION _) => c5_amended_special function_set.name type_name_no_template_args false 0
    | some (.METHOD _ parameter_types) =>
      c5_amended_special function_set.name type_name_no_template_args true parameter_types.length
    | _ => true))

/-- One overload emitted as the claim describes it: the overload type
lowered at `depth + 1` with `substitute = true, force_substitute = true`,
the classification flags, name and access copied on, and — for a Function
node — the modifier and vtable index from the overload. -/
def c5_lower_overload (enclosing : StabsType) (state : StabsToAstState) (depth : Nat)
    (info : MemberFunctionInfo) (stabs_func : StabsMemberFunction) : Result Node := do
  let node ← stabs_type_to_ast stabs_func.type (some enclosing) state (depth + 1) true true
  let node := node.withCommon (fun c =>
    { c with
      is_constructor_or_destructor := info.is_constructor_or_destructor
      is_special_member_function := info.is_special_member_function
      is_operator_member_function := info.is_operator_member_function
      name := info.name
      access_specifier := stabs_field_visibility_to_access_specifier stabs_func.visibility })
  pure (match node with
    | .mk c (.function return_type parameters _ _) =>
      Node.mk c (.function return_type parameters stabs_func.modifier stabs_func.vtable_index)
    | other => other)

def c5_emit_overloads (enclosing : StabsType) (state : StabsToAstState) (depth : Nat)
    (info : MemberFunctionInfo) : List StabsMemberFunction → Result (List Node)
  | [] => .ok []
  | stabs_func :: rest => do
    let node ← c5_lower_overload enclosing state depth info stabs_func
    let rest_nodes ← c5_emit_overloads enclosing state depth info rest
    pure (node :: rest_nodes)

/-- "All of the overloads of all of the sets", emitted in order. -/
def c5_emit_all (type : StabsType) (state : StabsToAstState) (depth : Nat) :
    List StabsMemberFunctionSet → Result (List Node)
  | [] => .ok []
  | function_set :: rest => do
    let info := check_member_function function_set.name
      (type_name_no_template_args_of type.name) state.demangler
    let nodes ← c5_emit_overloads type state depth info function_set.overloads
    let rest_nodes ← c5_emit_all type state depth rest
    pure (nodes ++ rest_nodes)

/-- "Only special functions survived": every set's name classifies as a
special member function via `check_member_function`. -/
def c5_all_sets_special (type : StabsType) (state : StabsToAstState)
    (sets : List StabsMemberFunctionSet) : Bool :=
  sets.all (fun function_set =>
    (check_member_function function_set.name
      (type_name_no_template_args_of type.name) state.demangler).is_special_member_function)

theorem c5_emit_overloads_bridge (ovs : List StabsMemberFunction)
    (enclosing : StabsType) (state : StabsToAstState) (depth : Nat)
    (info : MemberFunctionInfo) :
    emit_overloads_with (stabs_type_to_ast_go (200 - depth)) enclosing state depth info ovs =
      c5_emit_overloads enclosing state depth info ovs := by
  induction ovs with
  | nil => rfl
  | cons stabs_func rest ih =>
    unfold emit_overloads_with c5_emit_overloads c5_lower_overload
    rw [stabs_type_to_ast_depth_succ]
    cases h : stabs_type_to_ast stabs_func.type (some enclosing) state (depth + 1) true true with
    | error e => simp [h, Bind.bind, Except.bind]
    | ok node =>
      rw [ih]
      cases hrest : c5_emit_overloads enclosing state depth info rest with
      | error e => simp [h, hrest, Bind.bind, Except.bind, Pure.pure, Except.pure]
      | ok rest_nodes => simp [h, hrest, Bind.bind, Except.bind, Pure.pure, Except.pure]

theorem c5_emit_sets_bridge (sets : List StabsMemberFunctionSet)
    (type : StabsType) (state : StabsToAstState) (depth : Nat) :
    emit_sets_with (stabs_type_to_ast_go (200 - depth)) type
        (type_name_no_template_args_of type.name) state depth sets =
      (match c5_emit_all type state depth sets with
       | .ok nodes => .ok (nodes, c5_all_sets_special type state sets)
       | .error e => .error e) := by
  induction sets with
  | nil => rfl
  | cons function_set rest ih =>
    unfold emit_sets_with c5_emit_all
    simp only [c5_emit_overloads_bridge]
    cases h : c5_emit_overloads type state depth
        (check_member_function function_set.name
          (type_name_no_template_args_of type.name) state.demangler)
        function_set.overloads with
    | error e => simp [h, Bind.bind, Except.bind]
    | ok nodes =>
      rw [ih]
      cases hrest : c5_emit_all type state depth rest with
      | error e => simp [h, hrest, Bind.bind, Except.bind]
      | ok rest_nodes =>
        simp [h, hrest, Bind.bind, Except.bind, Pure.pure, Except.pure,
          c5_all_sets_special, List.all_cons]

theorem c5_special_pointwise (set_name type_name_no_template_args : String)
    (stabs_func : StabsMemberFunction) :
    (match stabs_func.type.body with
     | some (.FUNCTION _) => generated_special set_name type_name_no_template_args 0
     | some (.METHOD _ parameter_types) =>
       generated_special set_name type_name_no_template_args parameter_types.length
     | _ => true) =
    (match stabs_func.type.body with
     | some (.FUNCTION _) => c5_amended_special set_name type_name_no_template_args false 0
     | some (.METHOD _ parameter_types) =>
       c5_amended_special set_name type_name_no_template_args true parameter_types.length
     | _ => true) := by
  cases hb : stabs_func.type.body with
  | none => rfl
  | some d =>
    cases d <;> simp [generated_special, c5_amended_special]

def c5_return : StabsType := .mk ⟨5, 3⟩ false none false (some (.RANGE "0" "255"))

def c5_function_type : StabsType := .mk ⟨5, 2⟩ false none false (some (.FUNCTION c5_return))

def c5_sets : List StabsMemberFunctionSet := [.mk "Foo" [.mk c5_function_type .PUBLIC 0 (-1)]]

def c5_struct : StabsType :=
  .mk ⟨5, 1⟩ false (some "Foo") false (some (.STRUCT 4 [] [] c5_sets))

def c5_flag_state : StabsToAstState :=
  { file_handle := 0, stabs_types := [],
    parser_flags := { no_generated_member_functions := true }, demangler := {} }

/-- C5 counterexample: a struct `Foo` whose only member-function set is
named `Foo` and holds a single FUNCTION (not METHOD) overload.  Under the
claim's wording that overload is not special (the name-match rule is
restricted to zero-parameter METHODs), so the claim requires it to be
emitted — and the third conjunct shows its emission succeeds — yet the
code's first pass counts it special (`parameter_count` stays 0 for a
FUNCTION) and returns no member functions at all. -/
theorem C5_counterexample :
    member_functions_to_ast c5_struct c5_sets c5_flag_state 0 = .ok [] ∧
    c5_claim_all_special "Foo" c5_sets = false ∧
    c5_emit_all c5_struct c5_flag_state 0 c5_sets =
      .ok [Node.mk
        { name := "Foo", is_constructor_or_destructor := true,
          is_special_member_function := true }
        (.function (some (Node.mk {} (.builtIn .UNSIGNED_8))) none 0 (-1))] :=
  ⟨rfl, rfl, rfl⟩

/-- C5 (amended): with `NO_GENERATED_MEMBER_FUNCTIONS` set (and member
functions not disabled outright), the code's first pass agrees with the
amended specialness (name-match for any FUNCTION, or a METHOD with zero
parameters); if every FUNCTION/METHOD overload is special nothing is
emitted; otherwise all overloads of all sets are emitted, and the result
is still empty exactly when every set name classifies as a special member
function. -/
theorem C5_member_functions_amended :
    ∀ (type : StabsType) (sets : List StabsMemberFunctionSet)
      (state : StabsToAstState) (depth : Nat),
      state.parser_flags.no_member_functions = false →
      state.parser_flags.no_generated_member_functions = true →
      (only_generated_special (type_name_no_template_args_of type.name) sets =
        c5_amended_all_special (type_name_no_template_args_of type.name) sets) ∧
      (c5_amended_all_special (type_name_no_template_args_of type.name) sets = true →
        member_functions_to_ast type sets state depth = .ok []) ∧
      (∀ nodes, c5_amended_all_special (type_name_no_template_args_of type.name) sets = false →
        c5_emit_all type state depth sets = .ok nodes →
        member_functions_to_ast type sets state depth =
          .ok (if c5_all_sets_special type state sets then [] else nodes)) := by
  intro type sets state depth hnm hng
  have hpass : only_generated_special (type_name_no_template_args_of type.name) sets =
      c5_amended_all_special (type_name_no_template_args_of type.name) sets := rfl
  refine ⟨hpass, ?_, ?_⟩
  · intro hall
    unfold member_functions_to_ast member_functions_to_ast_with
    simp [hnm, hng, hpass, hall]
  · intro nodes hall hemit
    have hb := c5_emit_sets_bridge sets type state depth
    rw [hemit] at hb
    unfold member_functions_to_ast member_functions_to_ast_with
    cases hA : c5_all_sets_special type state sets with
    | true =>
      simp [hnm, hng, hpass, hall, hb, hA, Bind.bind, Except.bind, Pure.pure, Except.pure]
    | false =>
      simp [hnm, hng, hpass, hall, hb, hA, Bind.bind, Except.bind, Pure.pure, Except.pure]

def c5_witness_method : StabsType := .mk ⟨5, 5⟩ false none false (some (.METHOD c5_return []))

def c5_witness_sets : List StabsMemberFunctionSet :=
  [.mk "bar" [.mk c5_witness_method .PUBLIC 0 (-1)]]

/-- Witness for C5 at a concrete non-special method set. -/
theorem C5_member_functions_amended_witness :
    member_functions_to_ast c5_struct c5_witness_sets c5_flag_state 0 =
      .ok (if c5_all_sets_special c5_struct c5_flag_state c5_witness_sets then []
        else [Node.mk { name := "bar" }
          (.function (some (Node.mk {} (.builtIn .UNSIGNED_8))) (some []) 0 (-1))]) :=
  (C5_member_functions_amended c5_struct c5_witness_sets c5_flag_state 0 rfl rfl).2.2
    [Node.mk { name := "bar" }
      (.function (some (Node.mk {} (.builtIn .UNSIGNED_8))) (some []) 0 (-1))] rfl rfl

/-! ### The mdebug reader (`ccc/mdebug.cpp`), for claim C9 -/

/-- The byte image: an immutable sequence of octets. -/
abbrev Image := List Nat

/-- One byte of the image; reads are always bounds-checked first (via
`get_packed`-style length tests), so the default only fills struct slots
that were already verified to be in range. -/
def read_byte (image : Image) (offset : Nat) : Nat := (image.get? offset).getD 0

def read_u16 (image : Image) (offset : Nat) : Nat :=
  read_byte image offset + 256 * read_byte image (offset + 1)

def read_u32 (image : Image) (offset : Nat) : Nat :=
  read_byte image offset + 256 * read_byte image (offset + 1) +
  65536 * read_byte image (offset + 2) + 16777216 * read_byte image (offset + 3)

/-- Two's-complement decoding of a little-endian `s16`. -/
def to_s16 (v : Nat) : Int := if v < 32768 then (v : Int) else (v : Int) - 65536

/-- Two's-complement decoding of a little-endian `s32`. -/
def to_s32 (v : Nat) : Int := if v < 2147483648 then (v : Int) else (v : Int) - 4294967296

/-- `SymbolicHeader` (`mdebug.cpp` lines 5-31): the 0x60-byte record at
the start of the mdebug section. -/
structure SymbolicHeader where
  magic : Int
  version_stamp : Int
  line_number_count : Int
  line_numbers_size_bytes : Int
  line_numbers_offset : Int
  dense_numbers_count : Int
  dense_numbers_offset : Int
  procedure_descriptor_count : Int
  procedure_descriptors_offset : Int
  local_symbol_count : Int
  local_symbols_offset : Int
  optimization_symbols_count : Int
  optimization_symbols_offset : Int
  auxiliary_symbol_count : Int
  auxiliary_symbols_offset : Int
  local_strings_size_bytes : Int
  local_strings_offset : Int
  external_strings_size_bytes : Int
  external_strings_offset : Int
  file_descriptor_count : Int
  file_descriptors_offset : Int
  relative_file_descriptor_count : Int
  relative_file_descriptors_offset : Int
  external_symbols_count : Int
  external_symbols_offset : Int

def read_symbolic_header (image : Image) (offset : Nat) : SymbolicHeader :=
  { magic := to_s16 (read_u16 image offset)
    version_stamp := to_s16 (read_u16 image (offset + 0x2))
    line_number_count := to_s32 (read_u32 image (offset + 0x4))
    line_numbers_size_bytes := to_s32 (read_u32 image (offset + 0x8))
    line_numbers_offset := to_s32 (read_u32 image (offset + 0xc))
    dense_numbers_count := to_s32 (read_u32 image (offset + 0x10))
    dense_numbers_offset := to_s32 (read_u32 image (offset + 0x14))
    procedure_descriptor_count := to_s32 (read_u32 image (offset + 0x18))
    procedure_descriptors_offset := to_s32 (read_u32 image (offset + 0x1c))
    local_symbol_count := to_s32 (read_u32 image (offset + 0x20))
    local_symbols_offset := to_s32 (read_u32 image (offset + 0x24))
    optimization_symbols_count := to_s32 (read_u32 image (offset + 0x28))
    optimization_symbols_offset := to_s32 (read_u32 image (offset + 0x2c))
    auxiliary_symbol_count := to_s32 (read_u32 image (offset + 0x30))
    auxiliary_symbols_offset := to_s32 (read_u32 image (offset + 0x34))
    local_strings_size_bytes := to_s32 (read_u32 image (offset + 0x38))
    local_strings_offset := to_s32 (read_u32 image (offset + 0x3c))
    external_strings_size_bytes := to_s32 (read_u32 image (offset + 0x40))
    external_strings_offset := to_s32 (read_u32 image (offset + 0x44))
    file_descriptor_count := to_s32 (read_u32 image (offset + 0x48))
    file_descriptors_offset := to_s32 (read_u32 image (offset + 0x4c))
    relative_file_descriptor_count := to_s32 (read_u32 image (offset + 0x50))
    relative_file_descriptors_offset := to_s32 (read_u32 image (offset + 0x54))
    external_symbols_count := to_s32 (read_u32 image (offset + 0x58))
    external_symbols_offset := to_s32 (read_u32 image (offset + 0x5c)) }

/-- `FileDescriptor` (`mdebug.cpp` lines 33-58): the 0x48-byte record;
the flag bits share the little-endian `u32` at offset 0x3c
(first-declared field in the least significant bits). -/
structure FileDescriptorRecord where
  address : Int
  file_path_string_offset : Int
  strings_offset : Int
  cb_ss : Int
  isym_base : Int
  symbol_count : Int
  iline_base : Int
  cline : Int
  iopt_base : Int
  copt : Int
  ipd_first : Int
  cpd : Int
  iaux_base : Int
  caux : Int
  rfd_base : Int
  crfd : Int
  lang : Nat
  f_merge : Nat
  f_readin : Nat
  f_big_endian : Nat
  reserved_1 : Nat
  cb_line_offset : Int
  cb_line : Int

def read_file_descriptor (image : Image) (offset : Nat) : FileDescriptorRecord :=
  let flags := read_u32 image (offset + 0x3c)
  { address := (read_u32 image offset : Int)
    file_path_string_offset := to_s32 (read_u32 image (offset + 0x4))
    strings_offset := to_s32 (read_u32 image (offset + 0x8))
    cb_ss := to_s32 (read_u32 image (offset + 0xc))
    isym_base := to_s32 (read_u32 image (offset + 0x10))
    symbol_count := to_s32 (read_u32 image (offset + 0x14))
    iline_base := to_s32 (read_u32 image (offset + 0x18))
    cline := to_s32 (read_u32 image (offset + 0x1c))
    iopt_base := to_s32 (read_u32 image (offset + 0x20))
    copt := to_s32 (read_u32 image (offset + 0x24))
    ipd_first := to_s16 (read_u16 image (offset + 0x28))
    cpd := to_s16 (read_u16 image (offset + 0x2a))
    iaux_base := to_s32 (read_u32 image (offset + 0x2c))
    caux := to_s32 (read_u32 image (offset + 0x30))
    rfd_base := to_s32 (read_u32 image (offset + 0x34))
    crfd := to_s32 (read_u32 image (offset + 0x38))
    lang := flags % 32
    f_merge := flags / 32 % 2
    f_readin := flags / 64 % 2
    f_big_endian := flags / 128 % 2
    reserved_1 := flags / 256
    cb_line_offset := to_s32 (read_u32 image (offset + 0x40))
    cb_line := to_s32 (read_u32 image (offset + 0x44)) }

/-- `LocalSymbol` (`mdebug.cpp` lines 77-85): the 0xc-byte record with the
6/5/1/20-bit fields sharing the `u32` at offset 8. -/
structure LocalSymbolRecord where
  iss : Int
  value : Int
  st : Nat
  sc : Nat
  reserved : Nat
  index : Nat

def read_local_symbol (image : Image) (offset : Nat) : LocalSymbolRecord :=
  let word := read_u32 image (offset + 0x8)
  { iss := (read_u32 image offset : Int)
    value := to_s32 (read_u32 image (offset + 0x4))
    st := word % 64
    sc := word / 64 % 32
    reserved := word / 2048 % 2
    index := word / 4096 }

/-- `SourceLanguage` (from `mdebug.h`). -/
inductive SourceLanguage where
  | C
  | CPP
  | ASSEMBLY
  | UNKNOWN
deriving DecidableEq, Repr

/-- Modelled from the spec: the ECOFF LABEL storage type tag (`mdebug.h`
with the `SymbolType` enumeration is not part of the excerpt; the mdebug
format assigns `stLabel = 5`). -/
def symbol_type_label : Nat := 5

/-- A per-file symbol (`Symbol` of `mdebug.h`): its string (a byte
sequence from the local string table), value and decoded tag fields. -/
structure Symbol where
  string : List Nat
  value : Int
  storage_type : Nat
  storage_class : Nat
  index : Nat

/-- `SymFileDescriptor`. -/
structure SymFileDescriptor where
  header : FileDescriptorRecord
  raw_path : List Nat
  base_path : List Nat
  full_path : List Nat
  detected_language : SourceLanguage
  symbols : List Symbol

/-- `SymbolTable`. -/
structure SymbolTable where
  header : SymbolicHeader
  procedure_descriptor_table_offset : Int
  local_symbol_table_offset : Int
  file_descriptor_table_offset : Int
  files : List SymFileDescriptor

/-- `get_string`/`get_c_string` (the string readers of the missing header;
per spec section 4.1 `read_cstring` returns the bytes up to the NUL and
fails when no NUL occurs before the end of the image).  Runs on explicit
fuel covering the remaining image. -/
def read_cstring_go (image : Image) : Nat → Nat → Except String (List Nat)
  | _, 0 => .error "Unexpected end of buffer while reading string."
  | offset, fuel + 1 =>
    match image.get? offset with
    | none => .error "Unexpected end of buffer while reading string."
    | some 0 => .ok []
    | some b => (read_cstring_go image (offset + 1) fuel).map (fun rest => b :: rest)

def get_string_at (image : Image) (offset : Int) : Except String (List Nat) :=
  if offset < 0 then .error "Unexpected end of buffer while reading string."
  else read_cstring_go image offset.toNat (image.length + 1)

/-- `tolower` on an ASCII byte. -/
def byte_to_lower (b : Nat) : Nat := if 65 ≤ b ∧ b ≤ 90 then b + 32 else b

/-- The source-language detection (`mdebug.cpp` lines 108-117): lowercase
the raw path and match the suffixes ".c", ".cpp"/".cc"/".cxx",
".s"/".asm". -/
def detect_language (raw_path : List Nat) : SourceLanguage :=
  let lower := raw_path.map byte_to_lower
  if [0x2e, 0x63].isSuffixOf lower then .C
  else if [0x2e, 0x63, 0x70, 0x70].isSuffixOf lower || [0x2e, 0x63, 0x63].isSuffixOf lower ||
      [0x2e, 0x63, 0x78, 0x78].isSuffixOf lower then .CPP
  else if [0x2e, 0x73].isSuffixOf lower || [0x2e, 0x61, 0x73, 0x6d].isSuffixOf lower then .ASSEMBLY
  else .UNKNOWN

def split_on_slash : List Nat → List (List Nat)
  | [] => [[]]
  | b :: rest =>
    match split_on_slash rest with
    | p :: ps => if b == 47 then [] :: p :: ps else (b :: p) :: ps
    | [] => [[b]]

def collapse_step (stack : List (List Nat)) (part : List Nat) : List (List Nat) :=
  if part == [] || part == [46] then stack
  else if part == [46, 46] then stack.tail
  else part :: stack

def join_slash : List (List Nat) → List Nat
  | [] => []
  | [p] => p
  | p :: ps => p ++ 47 :: join_slash ps

/-- Modelled from the spec: `fs::weakly_canonical` (the C++ standard
library, spec sections 4.2 and the glossary) collapses "." and ".."
components without requiring filesystem existence. -/
def weakly_canonical (path : List Nat) : List Nat :=
  let absolute := path.headD 0 == 47
  let parts := ((split_on_slash path).foldl collapse_step []).reverse
  (if absolute then [47] else []) ++ join_slash parts

def replace_backslashes (path : List Nat) : List Nat :=
  path.map (fun b => if b == 92 then 47 else b)

/-- The per-file symbol loop (`mdebug.cpp` lines 119-136), including the
base-path recovery: when the current symbol's `iss` equals the file path
string offset, it and the previous symbol are LABELs, no base path was
recorded yet and at least three symbols have been read, the previous
symbol's string becomes the base path. -/
def parse_symbols (image : Image) (hdrr : SymbolicHeader) (fd : FileDescriptorRecord) :
    List Nat → List Symbol → List Nat → Except String (List Symbol × List Nat)
  | [], symbols, base_path => .ok (symbols, base_path)
  | j :: rest, symbols, base_path => do
    let sym_offset : Int := hdrr.local_symbols_offset + (fd.isym_base + (j : Int)) * 0xc
    if sym_offset < 0 || image.length < sym_offset.toNat + 0xc then
      .error "Failed to read local symbol."
    else do
      let sym_entry := read_local_symbol image sym_offset.toNat
      let string ← get_string_at image
        (hdrr.local_strings_offset + fd.strings_offset + sym_entry.iss)
      let sym : Symbol :=
        { string := string, value := sym_entry.value, storage_type := sym_entry.st,
          storage_class := sym_entry.sc, index := sym_entry.index }
      let symbols' := symbols ++ [sym]
      let base_path' :=
        if base_path == [] && sym_entry.iss == fd.file_path_string_offset &&
            sym.storage_type == symbol_type_label && symbols'.length > 2 then
          match symbols'.get? (symbols'.length - 2) with
          | some prev =>
            if prev.storage_type == symbol_type_label then prev.string else base_path
          | none => base_path
        else base_path
      parse_symbols image hdrr fd rest symbols' base_path'

/-- One iteration of the file-descriptor loop (`mdebug.cpp` lines
99-164): bounds-checked record read, endianness check, raw path, language
detection, symbols with base-path recovery, and full-path derivation. -/
def parse_file_descriptor (image : Image) (hdrr : SymbolicHeader) (i : Nat) :
    Except String SymFileDescriptor := do
  let fd_offset : Int := hdrr.file_descriptors_offset + (i : Int) * 0x48
  if fd_offset < 0 || image.length < fd_offset.toNat + 0x48 then
    .error "Failed to read file descriptor."
  else do
    let fd_header := read_file_descriptor image fd_offset.toNat
    if fd_header.f_big_endian ≠ 0 then
      .error "Not little endian or bad file descriptor table."
    else do
      let raw_path ← get_string_at image
        (hdrr.local_strings_offset + fd_header.strings_offset + fd_header.file_path_string_offset)
      let detected_language := detect_language raw_path
      let (symbols, base_path) ←
        parse_symbols image hdrr fd_header (List.range fd_header.symbol_count.toNat) [] []
      let base_path2 := replace_backslashes base_path
      let raw_path2 := replace_backslashes raw_path
      let full_path :=
        if base_path2 == [] || raw_path2.headD 0 == 47 ||
            (raw_path2.getD 1 0 == 58 && raw_path2.getD 2 0 == 47) then raw_path2
        else weakly_canonical (base_path2 ++ 47 :: raw_path2)
      pure { header := fd_header, raw_path := raw_path, base_path := base_path,
             full_path := full_path, detected_language := detected_language,
             symbols := symbols }

def parse_files (image : Image) (hdrr : SymbolicHeader) :
    List Nat → Except String (List SymFileDescriptor)
  | [] => .ok []
  | i :: rest => do
    let fd ← parse_file_descriptor image hdrr i
    let rest_fds ← parse_files image hdrr rest
    pure (fd :: rest_fds)

/-- `parse_symbol_table` (`mdebug.cpp` lines 87-167): read the symbolic
header (bounds-checked), verify the magic is 0x7009 and then iterate over
the file descriptors.  `verify` failures are fatal and are modelled as
`Except.error` with the source's message. -/
def parse_symbol_table (image : Image) (section_file_offset : Nat) :
    Except String SymbolTable :=
  if image.length < section_file_offset + 0x60 then
    .error "Failed to read MIPS debug section."
  else
    let hdrr := read_symbolic_header image section_file_offset
    if hdrr.magic ≠ 0x7009 then .error "Invalid symbolic header."
    else do
      let files ← parse_files image hdrr (List.range hdrr.file_descriptor_count.toNat)
      pure { header := hdrr
             procedure_descriptor_table_offset := hdrr.procedure_descriptors_offset
             local_symbol_table_offset := hdrr.local_symbols_offset
             file_descriptor_table_offset := hdrr.file_descriptors_offset
             files := files }

/-- C9: `parse_symbol_table` rejects every image whose symbolic header
magic field is not 0x7009 (the `verify` runs before the file-descriptor
loop, so the rejection holds whatever the rest of the image contains —
the BadMagic failure of the spec's taxonomy, message "Invalid symbolic
header."); in particular an mdebug section of 0x60 zero bytes, whose
first two bytes are 00 00, is rejected. -/
theorem C9_bad_magic :
    (∀ (image : Image) (section_file_offset : Nat),
      section_file_offset + 0x60 ≤ image.length →
      (read_symbolic_header image section_file_offset).magic ≠ 0x7009 →
      parse_symbol_table image section_file_offset = .error "Invalid symbolic header.") ∧
    parse_symbol_table (List.replicate 0x60 0) 0 = .error "Invalid symbolic header." ∧
    (read_symbolic_header (List.replicate 0x60 0) 0).magic = 0 := by
  refine ⟨?_, rfl, rfl⟩
  intro image section_file_offset hbound hmagic
  unfold parse_symbol_table
  rw [if_neg (by omega), if_pos hmagic]

/-- Witness for C9: a 0x60-byte image whose magic decodes to 1. -/
theorem C9_bad_magic_witness :
    parse_symbol_table (1 :: List.replicate 0x5f 0) 0 = .error "Invalid symbolic header." :=
  C9_bad_magic.1 (1 :: List.replicate 0x5f 0) 0 (by simp) (by decide)

end ccc
